import Mathlib

/-!
Shallow embedding of the Alfa Romeo Giulia dashboard-info firmware
(src/AlfaRomeoGiulia_DashboardInfo_ESP32-S3.ino and the headers under src/)
used to check the claims of the specification against the code.

Conventions used throughout:
* 8-byte CAN payloads are `List Nat`, every entry below 256; `uint8_t`
  stores insert `% 256` where the source narrows to a byte.
* `float` quantities (turbo boost psi, battery volts) are modelled as `ℚ`.
* Wall-clock milliseconds (the Arduino `millis()` clock) are passed
  explicitly as `now : Nat`; `delay(t)` advances it by `t`.
-/

namespace GiuliaDash

/-! ## Constants from DisplayInfoOnDashboard.h (lines 15-21, 142) -/

def NumCharsInText : Nat := 24
def NumUTFCharsPerFrame : Nat := 3
def NumFramesToDisplayText : Nat := NumCharsInText / NumUTFCharsPerFrame
def TimeToDisplayText : Nat := 1000 / 5
def DelayTimeBetweenFrames : Nat := TimeToDisplayText / NumFramesToDisplayText
def InfoCode : Nat := 0x05

/-! ## CAN identifiers from Shared.h -/

namespace CAN_Id
def DriveMode : Nat := 0x384
def GearInfo : Nat := 0x2EF
def EngineRPM : Nat := 0x0FC
def Boost : Nat := 0x2EF
def DashboardText : Nat := 0x090
end CAN_Id

/-! ## Gear decode from OBD2Calculations.h, `CalcGear_FromBroadcastedFrame`

Gear status is on byte 0 from bit 7 to 4 (0x0 = neutral, 0x1-0x6 = gear 1-6,
0x7 = reverse, 0x8-0xA = gear 7-9, 0xF = neutral in Park). -/

def CalcGear_FromBroadcastedFrame (pData : List Nat) : Int :=
  let g : Nat := ((pData.getD 0 0) % 256) >>> 4
  if g = 0x07 then -1
  else if 0x08 ≤ g ∧ g ≤ 0x0A then (g : Int) - 1
  else if g = 0x0F then 0
  else (g : Int)

/-! ## Display-channel payload encode/decode from DisplayInfoOnDashboard.h

`SetDashboardTextCharacters` (lines 145-172) builds one outbound frame;
`GetCurrentRadioFrame` / `GetNumRadioFrames` / `GetRadioInfoCode`
(lines 174-195) parse a received frame of the same layout. -/

def encByte0 (numFrames currentFrame : Nat) : Nat :=
  let indexOfLastFrame := (numFrames - 1) % 256
  let b0 := ((indexOfLastFrame <<< 3) &&& 0b11111000) % 256
  (b0 ||| ((currentFrame >>> 2) &&& 0b00000111)) % 256

def encByte1 (currentFrame : Nat) : Nat :=
  let b1 := (InfoCode &&& 0b00111111) % 256
  (b1 ||| ((currentFrame <<< 6) &&& 0b11000000)) % 256

def SetDashboardTextCharacters (numFrames currentFrame : Nat) (text : List Nat) :
    List Nat :=
  [encByte0 numFrames currentFrame, encByte1 currentFrame,
   0, (text.getD 0 0) % 256, 0, (text.getD 1 0) % 256, 0, (text.getD 2 0) % 256]

def GetCurrentRadioFrame (pData : List Nat) : Nat :=
  let highBits := ((pData.getD 0 0 % 256) &&& 0b00000111) <<< 2
  let lowBits := ((pData.getD 1 0 % 256) &&& 0b11000000) >>> 6
  highBits ||| lowBits

def GetNumRadioFrames (pData : List Nat) : Nat :=
  ((pData.getD 0 0 % 256) >>> 3) + 1

def GetRadioInfoCode (pData : List Nat) : Nat :=
  (pData.getD 1 0 % 256) &&& 0b00111111

/-! ## Timers -/

/-- Modelled from the spec: `AsyncTimer.h` belongs to this repository but is not
under src/ (only its callers are).  The spec (sections 3, 4.2, 4.4, 4.5) describes
these objects as countdown timers over the millisecond clock: a timer owns a
configured duration, can be (re)started — optionally with a new duration — can be
queried for expiry (`RanOut`), for the remaining time (`GetTimeLeft`) and for
whether it is running (`IsActive`), and can be stopped.  We model a timer as its
duration plus the absolute start instant, with the current instant passed
explicitly to every query; a stopped or never-started timer has no time left. -/
structure AsyncTimer where
  duration : Nat
  startedAt : Option Nat
deriving DecidableEq

namespace AsyncTimer

/-- `AsyncTimer t(d)` constructor: configured with duration `d`, not yet started. -/
def mk0 (d : Nat) : AsyncTimer := ⟨d, none⟩

/-- `t.Start()`: restart with the currently configured duration. -/
def Start (t : AsyncTimer) (now : Nat) : AsyncTimer := { t with startedAt := some now }

/-- `t.Start(d)`: restart with a new duration `d`. -/
def StartWith (t : AsyncTimer) (d now : Nat) : AsyncTimer :=
  { duration := d, startedAt := some now }

/-- `t.IsActive()`. -/
def IsActive (t : AsyncTimer) : Bool := t.startedAt.isSome

/-- `t.GetTimeLeft()` in milliseconds. -/
def GetTimeLeft (t : AsyncTimer) (now : Nat) : Nat :=
  match t.startedAt with
  | none => 0
  | some s => s + t.duration - now

/-- `t.RanOut()`. -/
def RanOut (t : AsyncTimer) (now : Nat) : Bool :=
  match t.startedAt with
  | none => true
  | some s => decide (s + t.duration ≤ now)

/-- `t.Stop()`. -/
def Stop (t : AsyncTimer) : AsyncTimer := { t with startedAt := none }

/-- The absolute instant at which a running timer expires. -/
def deadline (t : AsyncTimer) : Nat :=
  match t.startedAt with
  | none => 0
  | some s => s + t.duration

end AsyncTimer

/-! ## Car data (Shared.h) -/

/-- The `CarData` record declared in Shared.h and shared between the two cores;
the fields are exactly those read by the code under src/. -/
structure CarData where
  EngineRPM : Int
  Gear : Int
  EngineTemp : Int
  EngineOilTemp : Int
  ExhaustGasTemp : Int
  AtmosphericPressure : Int
  BoostPressure : Int
  Battery : ℚ
  DriveMode : Nat
  bCarTurnedOn : Bool
deriving DecidableEq

/-- `DNASelector::D` (Dynamic). -/
def DNASelector_D : Nat := 0x09

/-! ## ProcessCarData.h: constants, state and predicates (lines 8-96) -/

def ColdEngineSafeRPM : Int := 3000
def SquadraSafeOilTemperature : Int := 70
def TurboCooldownOilTemperature : Int := 60

/-- One row of the turbo cooldown table (ProcessCarData.h lines 26-31). -/
structure TurboCooldownInfo where
  EngineRPM : Int
  ExhaustGasTemp : Int
  CooldownDuration : Nat
deriving DecidableEq

/-- The cooldown "zone" table (ProcessCarData.h lines 34-37). -/
def turboCooldownInfo : List TurboCooldownInfo :=
  [⟨4000, 816, 180 * 1000⟩, ⟨3500, 703, 60 * 1000⟩,
   ⟨2600, 649, 30 * 1000⟩, ⟨2100, 538, 0 * 1000⟩]

def MaxTurboCooldownDuration : Nat :=
  (turboCooldownInfo.getD 0 ⟨0, 0, 0⟩).CooldownDuration

def SpritedDrivingBoostPressure : ℚ := 20

/-- The mutable state owned by the display thread in ProcessCarData.h
(lines 11-17, 43-48). -/
structure ProcessState where
  turboBoostPsi : ℚ
  maxBoostPsi : ℚ
  maxBoostRPM : Int
  maxBoostGear : Int
  maxColdRPM : Int
  timerTurboCooldown : AsyncTimer
  timerTurboCooldownMonitor : AsyncTimer
  monitorMaxEngineRPM : Int
  monitorMaxExhaustGasTemp : Int
deriving DecidableEq

def IsSquadraEnabled (cd : CarData) : Bool :=
  decide (cd.DriveMode = DNASelector_D ∧ cd.EngineOilTemp ≥ SquadraSafeOilTemperature)

def IsEngineColdAndHighRPM (cd : CarData) : Bool :=
  decide (cd.EngineOilTemp < SquadraSafeOilTemperature ∧ cd.EngineRPM > ColdEngineSafeRPM)

def IsCarIdlingOrInReverse (cd : CarData) : Bool :=
  decide (cd.EngineRPM < 1000 ∨ cd.Gear = -1)

def IsBatteryLow (cd : CarData) : Bool :=
  decide (cd.Battery > 0 ∧ cd.Battery < 12.4)

def IsBoostInfoInteresting (s : ProcessState) : Bool :=
  decide (s.maxBoostPsi > 1)

def IsTurboStillCoolingDown (s : ProcessState) (now : Nat) : Bool :=
  !(s.timerTurboCooldown.RanOut now)

def GetTurboCooldownSeconds (s : ProcessState) (now : Nat) : Nat :=
  s.timerTurboCooldown.GetTimeLeft now / 1000

/-! ## ProcessCarData.h: `ProcessCarData` (lines 99-177), decomposed into its
contiguous source sections -/

/-- Lines 101-104: restart the cooldown timer if its remaining time is ever found
above the maximum cooldown duration. -/
def clampTimerStage (s : ProcessState) (now : Nat) : ProcessState :=
  if s.timerTurboCooldown.GetTimeLeft now > MaxTurboCooldownDuration
  then { s with timerTurboCooldown := s.timerTurboCooldown.Start now }
  else s

/-- Line 107: `_min(_max(0.0f, float(BoostPressure - AtmosphericPressure)) * 0.0145038f, 40.0f)`. -/
def calcTurboBoostPsi (cd : CarData) : ℚ :=
  min (max 0 ((cd.BoostPressure - cd.AtmosphericPressure : Int) : ℚ) * 0.0145038) 40

/-- Lines 106-116: compute the boost psi and update the running maximum. -/
def boostStage (s : ProcessState) (cd : CarData) : ProcessState :=
  let s := { s with turboBoostPsi := calcTurboBoostPsi cd }
  if s.turboBoostPsi > s.maxBoostPsi ∧ cd.AtmosphericPressure > 0
  then { s with maxBoostRPM := cd.EngineRPM, maxBoostGear := cd.Gear,
                maxBoostPsi := s.turboBoostPsi }
  else s

/-- Lines 118-126: track the maximum RPM while the engine is cold. -/
def coldRPMStage (s : ProcessState) (cd : CarData) : ProcessState :=
  if cd.EngineOilTemp < SquadraSafeOilTemperature
  then { s with maxColdRPM := max s.maxColdRPM cd.EngineRPM }
  else { s with maxColdRPM := 0 }

/-- Lines 142-154: first matching row of the cooldown table wins. -/
def tierLookup : List TurboCooldownInfo → Int → Int → Nat
  | [], _, _ => 0
  | ti :: rest, rpm, egt =>
      if rpm > ti.EngineRPM ∨ egt > ti.ExhaustGasTemp then ti.CooldownDuration
      else tierLookup rest rpm egt

/-- Lines 142-166: the duration computed on window expiry, i.e. the tier lookup on
the window peaks followed by the cold-oil and spirited-driving overrides. -/
def computedCooldownDuration (psi : ℚ) (cd : CarData) (monRPM monEGT : Int) : Nat :=
  let d := tierLookup turboCooldownInfo monRPM monEGT
  let d := if cd.EngineOilTemp < TurboCooldownOilTemperature then 0 else d
  if psi > SpritedDrivingBoostPressure then MaxTurboCooldownDuration else d

/-- Lines 128-176: the 5-second monitor window.  While it is running, accumulate
peaks; on expiry, restart it, compute a cooldown duration, extend the cooldown
timer if the new duration exceeds its remaining time, and re-seed the peaks from
the instantaneous values. -/
def monitorStage (s : ProcessState) (cd : CarData) (now : Nat) : ProcessState :=
  if !(s.timerTurboCooldownMonitor.RanOut now) then
    { s with monitorMaxEngineRPM := max s.monitorMaxEngineRPM cd.EngineRPM,
             monitorMaxExhaustGasTemp := max s.monitorMaxExhaustGasTemp cd.ExhaustGasTemp }
  else
    let s := { s with timerTurboCooldownMonitor := s.timerTurboCooldownMonitor.Start now }
    let d := computedCooldownDuration s.turboBoostPsi cd
               s.monitorMaxEngineRPM s.monitorMaxExhaustGasTemp
    let s := if d > s.timerTurboCooldown.GetTimeLeft now
             then { s with timerTurboCooldown := s.timerTurboCooldown.StartWith d now }
             else s
    { s with monitorMaxEngineRPM := cd.EngineRPM,
             monitorMaxExhaustGasTemp := cd.ExhaustGasTemp }

/-- `ProcessCarData()` (lines 99-177), one call at instant `now`. -/
def ProcessCarData (s : ProcessState) (cd : CarData) (now : Nat) : ProcessState :=
  monitorStage (coldRPMStage (boostStage (clampTimerStage s now) cd) cd) cd now

/-! ## DisplayInfoOnDashboard.h: message selection (lines 29-55, 286-482) -/

/-- The `InfoToDisplay` enumeration (lines 29-40); `NumInfoMessages` is its
cardinality, kept as a `Nat` below. -/
inductive InfoToDisplay
  | infoDrivingInfoWithEngineTemp
  | infoDrivingInfoWithEngineOilTemp
  | infoDrivingInfoWithBattery
  | infoDrivingInfoWithSquadra
  | infoMaxBoost
  | infoTurboCooldownTimer
  | infoWarningLowBattery
  | infoWarningColdEngine
deriving DecidableEq

def NumInfoMessages : Nat := 8
def MaxInfoIndexWhileDriving : Nat := 2
def MinInfoIndexWhileIdling : Nat := 4

/-- The C cast `(InfoToDisplay)i` for the in-range indices used by the code
(named `fromIndex` because enum-like inductives already reserve `ofNat`). -/
def InfoToDisplay.fromIndex : Nat → InfoToDisplay
  | 0 => .infoDrivingInfoWithEngineTemp
  | 1 => .infoDrivingInfoWithEngineOilTemp
  | 2 => .infoDrivingInfoWithBattery
  | 3 => .infoDrivingInfoWithSquadra
  | 4 => .infoMaxBoost
  | 5 => .infoTurboCooldownTimer
  | 6 => .infoWarningLowBattery
  | 7 => .infoWarningColdEngine
  | _ => .infoDrivingInfoWithEngineTemp

/-- The mutable state read and written by `GenerateText` (lines 42-55 and the
static at line 306); `bIsInfoActive` is the 8-entry flag array. -/
structure DisplayState where
  timerShowNameAndVersion : AsyncTimer
  timerWaitBeforeShowingInfoWhileIdle : AsyncTimer
  timerToggleInfoWhileDriving : AsyncTimer
  timerToggleInfoWhileIdling : AsyncTimer
  infoIndexWhileDriving : Nat
  infoIndexWhileIdling : Nat
  bFoundActiveIdleMessage : Bool
  bIsInfoActive : List Bool
deriving DecidableEq

/-- The round-robin advance loop (lines 362-375): up to `fuel` steps of
"increment with wrap-around to `MinInfoIndexWhileIdling`, stop at the first
active entry".  Returns the new index and whether an active entry was hit. -/
def advanceIdleIndex : Nat → List Bool → Nat → Nat × Bool
  | 0, _, idx => (idx, false)
  | fuel + 1, act, idx =>
      let idx' := if idx + 1 ≥ NumInfoMessages then MinInfoIndexWhileIdling else idx + 1
      if act.getD idx' false then (idx', true) else advanceIdleIndex fuel act idx'

/-- Lines 295-304: toggle the while-driving info index. -/
def drivingToggleStage (s : DisplayState) (now : Nat) : DisplayState :=
  if s.timerToggleInfoWhileDriving.RanOut now then
    let s := { s with timerToggleInfoWhileDriving := s.timerToggleInfoWhileDriving.Start now }
    let i := s.infoIndexWhileDriving + 1
    { s with infoIndexWhileDriving := if i > MaxInfoIndexWhileDriving then 0 else i }
  else s

/-- Lines 312-330: choose what info to show while driving.
(`SHOW_SQUADRA_MESSAGE` is defined in the sketch, so the Squadra branch is
compiled in.) -/
def chooseDrivingInfo (s : DisplayState) (cd : CarData) : InfoToDisplay :=
  if IsSquadraEnabled cd then .infoDrivingInfoWithSquadra
  else if IsEngineColdAndHighRPM cd then .infoWarningColdEngine
  else InfoToDisplay.fromIndex s.infoIndexWhileDriving

/-- Lines 335-355: mark the active idle messages. -/
def setIdleFlagsStage (s : DisplayState) (ps : ProcessState) (cd : CarData)
    (now : Nat) : DisplayState :=
  let act := s.bIsInfoActive
  let act := if IsBoostInfoInteresting ps then act.set 4 true else act
  let act := if IsBatteryLow cd then act.set 6 true else act
  let act := if IsEngineColdAndHighRPM cd then act.set 7 true else act
  let act := if IsTurboStillCoolingDown ps now then act.set 5 true else act
  { s with bIsInfoActive := act }

/-- Lines 357-382: on the idle-toggle boundary, advance the round-robin index
to the next active message, remember whether one was found, and reset all
active flags. -/
def idleToggleStage (s : DisplayState) (now : Nat) : DisplayState :=
  if s.timerToggleInfoWhileIdling.RanOut now then
    let s := { s with timerToggleInfoWhileIdling := s.timerToggleInfoWhileIdling.Start now }
    let r := advanceIdleIndex (NumInfoMessages - MinInfoIndexWhileIdling)
               s.bIsInfoActive s.infoIndexWhileIdling
    { s with infoIndexWhileIdling := r.1,
             bFoundActiveIdleMessage := s.bFoundActiveIdleMessage || r.2,
             bIsInfoActive := List.replicate NumInfoMessages false }
  else s

/-- Lines 386-389: arm the debounce timer if it is not running. -/
def armDebounceStage (s : DisplayState) (now : Nat) : DisplayState :=
  if !s.timerWaitBeforeShowingInfoWhileIdle.IsActive
  then { s with timerWaitBeforeShowingInfoWhileIdle :=
                  s.timerWaitBeforeShowingInfoWhileIdle.Start now }
  else s

/-- Lines 391-397: show the idle message only after the debounce elapsed. -/
def chooseIdleInfo (s : DisplayState) (now : Nat) (dflt : InfoToDisplay) :
    InfoToDisplay :=
  if s.timerWaitBeforeShowingInfoWhileIdle.RanOut now ∧ s.bFoundActiveIdleMessage
  then InfoToDisplay.fromIndex s.infoIndexWhileIdling
  else dflt

/-- Lines 399-403: back to driving. -/
def leaveIdleStage (s : DisplayState) : DisplayState :=
  { s with bFoundActiveIdleMessage := false,
           timerWaitBeforeShowingInfoWhileIdle := s.timerWaitBeforeShowingInfoWhileIdle.Stop }

/-- `GenerateText` (lines 286-482), restricted to the selection of the display
intent; the `sprintf` formatting of the 24-character text (lines 405-479) does
not affect any state and is not modelled.  The result is `none` while the
name/version banner is being shown, otherwise the selected `InfoToDisplay`. -/
def GenerateText (s : DisplayState) (ps : ProcessState) (cd : CarData) (now : Nat) :
    DisplayState × Option InfoToDisplay :=
  -- lines 289-293: show project name when the car turns on
  if !(s.timerShowNameAndVersion.RanOut now) then (s, none)
  else
    let s := drivingToggleStage s now
    let infoToDisplay := chooseDrivingInfo s cd
    -- lines 332-398: the "while idling" information
    if IsCarIdlingOrInReverse cd then
      let s := setIdleFlagsStage s ps cd now
      let s := idleToggleStage s now
      let s := armDebounceStage s now
      (s, some (chooseIdleInfo s now infoToDisplay))
    else
      (leaveIdleStage s, some infoToDisplay)

/-! ## DisplayInfoOnDashboard.h: the outbound multi-frame text protocol
(`SetDashboardText`, lines 213-268)

The environment is the sequence of results of the successive `CAN.read` calls:
`none` for a failed read, `some p` for a received 8-byte payload `p`.  The
observable behaviour is the trace of sent frames and delays. -/

/-- One observable action of `SetDashboardText`: sending the local frame with a
given index, or sleeping between frames. -/
inductive Event
  | sent (frame : Nat)
  | delayed (ms : Nat)
deriving DecidableEq

/-- The inner wait loop (lines 246-261): keep polling until the observed frame
index reaches the observed total minus one; every observed frame updates both,
and observing index 1 re-sends local frame 0.  Returns the emitted events,
whether the loop exited (`false` means the polls ran dry while still waiting,
i.e. the code would spin forever), and how many polls were consumed. -/
def InnerWait : Nat → Nat → List (Option (List Nat)) → List Event × Bool × Nat
  | nf, cur, polls =>
    if nf - 1 ≤ cur then ([], true, 0)
    else
      match polls with
      | [] => ([], false, 0)
      | none :: rest =>
          let r := InnerWait nf cur rest
          (r.1, r.2.1, r.2.2 + 1)
      | some p :: rest =>
          let ev := if GetCurrentRadioFrame p = 1 then [Event.sent 0] else []
          let r := InnerWait (GetNumRadioFrames p) (GetCurrentRadioFrame p) rest
          (ev ++ r.1, r.2.1, r.2.2 + 1)

/-- The body of `SetDashboardText` (lines 213-268) from loop counter
`currentFrame` with current inter-frame delay `dly`, as the trace of events it
emits.  Observing a frame with this system's own info code just moves on to the
next local frame; any other observed frame triggers the recovery: re-send local
frame 0 when the observed index is 1, wait out the competing sequence, then
restart from local frame 0 with the delay shortened by 5 ms.  If the polls run
dry inside the wait loop the code spins silently forever, so the trace simply
ends. -/
def SetDashboardTextLoop (currentFrame dly : Nat) (polls : List (Option (List Nat))) :
    List Event :=
  if currentFrame ≥ NumFramesToDisplayText then []
  else
    Event.sent currentFrame :: Event.delayed dly ::
      (match polls with
       | [] => SetDashboardTextLoop (currentFrame + 1) dly []
       | none :: rest => SetDashboardTextLoop (currentFrame + 1) dly rest
       | some p :: rest =>
           if GetRadioInfoCode p = InfoCode then SetDashboardTextLoop (currentFrame + 1) dly rest
           else
             (if GetCurrentRadioFrame p = 1 then [Event.sent 0] else [])
               ++ (InnerWait (GetNumRadioFrames p) (GetCurrentRadioFrame p) rest).1
               ++ (if (InnerWait (GetNumRadioFrames p) (GetCurrentRadioFrame p) rest).2.1 then
                     SetDashboardTextLoop 0 (DelayTimeBetweenFrames - 5)
                       (rest.drop (InnerWait (GetNumRadioFrames p) (GetCurrentRadioFrame p) rest).2.2)
                   else []))
termination_by (polls.length, NumFramesToDisplayText - currentFrame)
decreasing_by
  · apply Prod.Lex.right; simp only [NumFramesToDisplayText, NumCharsInText,
      NumUTFCharsPerFrame] at *; omega
  · apply Prod.Lex.left; simp
  · apply Prod.Lex.left; simp
  · apply Prod.Lex.left
    simp only [List.length_cons, List.length_drop]
    omega

/-- `SetDashboardText` itself starts the pass at local frame 0 with the standard
inter-frame delay. -/
def SetDashboardText (polls : List (Option (List Nat))) : List Event :=
  SetDashboardTextLoop 0 DelayTimeBetweenFrames polls

/-! ## HandleLowPowerState.h: power-on detection (lines 57-155)

The environment is the sequence of "drain results": each pass of the inner
`while (ESP32Can.readFrame(...))` loop empties the receive queue, so it is
modelled as one `List CanFrame` per outer iteration. -/

/-- A frame received over the high-speed bus (ESP32-TWAI `CanFrame`). -/
structure CanFrame where
  identifier : Nat
  data_length_code : Nat
  data : List Nat
deriving DecidableEq

def IgnitionOff : Nat := 0x00
def IgnitionOn : Nat := 0x04
def IgnitionStart : Nat := 0x14

/-- `CalcIgnitionKeyPosition` (OBD2Calculations.h): the decoded position is data
byte 4. -/
def CalcIgnitionKeyPosition (pData : List Nat) : Nat := pData.getD 4 0 % 256

/-- The `Ignition Key Position` PID from the descriptor table in CollectCarData.h. -/
def IgnitionKeyPositionPID : Nat := 0x0131

/-- The test applied to each drained frame in `ReceviedAnyCANFrame`
(lines 69-79): a drive-mode broadcast frame with a full 8-byte payload means
the car is on. -/
def IsCarOnFrame (f : CanFrame) : Bool :=
  f.identifier == CAN_Id.DriveMode && f.data_length_code == 8

/-- The wait loop of `ReceviedAnyCANFrame` (lines 66-83): while the deep-sleep
window timer is running, drain the queue looking for a drive-mode frame, then
`delay(1000)`.  Returns the decision and the instant at which it was taken. -/
def ReceviedAnyCANFrameLoop (t : AsyncTimer) (batches : List (List CanFrame))
    (now : Nat) : Bool × Nat :=
  if h : t.IsActive = true ∧ t.RanOut now = false then
    match batches with
    | [] => ReceviedAnyCANFrameLoop t [] (now + 1000)
    | b :: rest =>
        if b.any IsCarOnFrame then (true, now)
        else ReceviedAnyCANFrameLoop t rest (now + 1000)
  else (false, now)
termination_by t.deadline - now
decreasing_by
  all_goals
    obtain ⟨hA, hR⟩ := h
    simp only [AsyncTimer.IsActive, Option.isSome_iff_exists] at hA
    obtain ⟨s0, hs0⟩ := hA
    simp only [AsyncTimer.RanOut, hs0, decide_eq_false_iff_not, not_le] at hR
    simp only [AsyncTimer.deadline, hs0]
    omega

/-- The drain pass of `CarIgnitionOn` (lines 106-117): scan the queue for the
first response frame from a valid car module carrying the ignition PID and
decode it.  `validModule` and `getPid` stand for `IsValidCarModule` and
`GetPID`; modelled from the spec: OBD2Utils.h is part of this repository but
not under src/, and the spec (section 4.3) only says that a response frame's
identifier is matched against the known module identifiers and that the
embedded PID is then extracted, so both are abstract parameters here. -/
def drainForIgnitionResponse (validModule : Nat → Bool) (getPid : CanFrame → Nat) :
    List CanFrame → Option Nat
  | [] => none
  | f :: fs =>
      if validModule f.identifier && (getPid f == IgnitionKeyPositionPID)
      then some (CalcIgnitionKeyPosition f.data)
      else drainForIgnitionResponse validModule getPid fs

/-- The wait loop of `CarIgnitionOn` (lines 103-121): while the deep-sleep
window timer is running, look for the ignition-position response; the first
decoded response decides the answer, a dry window means `false`. -/
def CarIgnitionOnLoop (validModule : Nat → Bool) (getPid : CanFrame → Nat)
    (t : AsyncTimer) (batches : List (List CanFrame)) (now : Nat) : Bool :=
  if h : t.IsActive = true ∧ t.RanOut now = false then
    match batches with
    | [] => CarIgnitionOnLoop validModule getPid t [] (now + 500)
    | b :: rest =>
        match drainForIgnitionResponse validModule getPid b with
        | some v => decide (v ≠ IgnitionOff)
        | none => CarIgnitionOnLoop validModule getPid t rest (now + 500)
  else false
termination_by t.deadline - now
decreasing_by
  all_goals
    obtain ⟨hA, hR⟩ := h
    simp only [AsyncTimer.IsActive, Option.isSome_iff_exists] at hA
    obtain ⟨s0, hs0⟩ := hA
    simp only [AsyncTimer.RanOut, hs0, decide_eq_false_iff_not, not_le] at hR
    simp only [AsyncTimer.deadline, hs0]
    omega

/-- `CarIgnitionOn` (lines 90-124): a previously decoded position other than
`Off` answers immediately; otherwise send one ignition request and poll for the
response within the remaining window. -/
def CarIgnitionOn (validModule : Nat → Bool) (getPid : CanFrame → Nat)
    (ignitionKeyPosition : Nat) (t : AsyncTimer)
    (batches : List (List CanFrame)) (now : Nat) : Bool :=
  if ignitionKeyPosition ≠ IgnitionOff then true
  else CarIgnitionOnLoop validModule getPid t batches now

/-- The terminal action of the power-on detection sequence. -/
inductive PowerAction
  | enterDeepSleep
  | enterRunning
deriving DecidableEq

/-- `WaitForCarToTurnOn` (lines 127-155): start the 5-second window timer, probe
for any qualifying broadcast frame, then verify the ignition; either failure
ends in `DeepSleep()`, success ends in the running state.
(`DISABLE_POWER_SAVING_CHECKS` is not defined in the sketch, so the body runs.) -/
def WaitForCarToTurnOn (validModule : Nat → Bool) (getPid : CanFrame → Nat)
    (ignitionKeyPosition : Nat)
    (probeBatches verifyBatches : List (List CanFrame)) (t0 : Nat) : PowerAction :=
  let t := (AsyncTimer.mk0 5000).Start t0
  let pr := ReceviedAnyCANFrameLoop t probeBatches t0
  if pr.1 = false then .enterDeepSleep
  else if CarIgnitionOn validModule getPid ignitionKeyPosition t verifyBatches pr.2 = false
  then .enterDeepSleep
  else .enterRunning

/-! ## Concrete inputs used by counterexamples and witnesses -/

/-- A snapshot with cold oil (50 °C < 60 °C) but high boost:
absolute 3000 mbar against 1000 mbar atmospheric is
2000 × 0.0145038 ≈ 29 psi > 20 psi. -/
def coldOilHighBoostCar : CarData :=
  { EngineRPM := 0, Gear := 0, EngineTemp := 0, EngineOilTemp := 50,
    ExhaustGasTemp := 0, AtmosphericPressure := 1000, BoostPressure := 3000,
    Battery := 0, DriveMode := 0, bCarTurnedOn := true }

/-- A process state whose 5-second monitor window has expired at instant 10000
and whose cooldown timer has no time left. -/
def expiredMonitorState : ProcessState :=
  { turboBoostPsi := 0, maxBoostPsi := 0, maxBoostRPM := 0, maxBoostGear := 0,
    maxColdRPM := 0, timerTurboCooldown := AsyncTimer.mk0 0,
    timerTurboCooldownMonitor := ⟨5000, some 0⟩,
    monitorMaxEngineRPM := 0, monitorMaxExhaustGasTemp := 0 }

/-- A snapshot idling in reverse with a cold engine at high RPM and a healthy
battery. -/
def idleReverseColdCar : CarData :=
  { EngineRPM := 3500, Gear := -1, EngineTemp := 0, EngineOilTemp := 50,
    ExhaustGasTemp := 0, AtmosphericPressure := 1000, BoostPressure := 1000,
    Battery := 13, DriveMode := 0, bCarTurnedOn := true }

/-- A process state whose turbo-cooldown timer still has most of a long
countdown left and whose maximum boost is uninteresting. -/
def coolingProcState : ProcessState :=
  { turboBoostPsi := 0, maxBoostPsi := 0, maxBoostRPM := 0, maxBoostGear := 0,
    maxColdRPM := 0, timerTurboCooldown := ⟨1000000, some 0⟩,
    timerTurboCooldownMonitor := ⟨5000, some 0⟩,
    monitorMaxEngineRPM := 0, monitorMaxExhaustGasTemp := 0 }

/-- A display state at an idle-toggle boundary: all timers started at instant
0, all idle flags clear, the idle round-robin cursor at its lowest index. -/
def idleBoundaryDisplay : DisplayState :=
  { timerShowNameAndVersion := ⟨10000, some 0⟩,
    timerWaitBeforeShowingInfoWhileIdle := ⟨2000, some 0⟩,
    timerToggleInfoWhileDriving := ⟨3000, some 0⟩,
    timerToggleInfoWhileIdling := ⟨5000, some 0⟩,
    infoIndexWhileDriving := 0, infoIndexWhileIdling := 4,
    bFoundActiveIdleMessage := false,
    bIsInfoActive := [false, false, false, false, false, false, false, false] }

/-! # Theorems -/

/-! ## Helper lemmas about the timer model -/

theorem AsyncTimer.GetTimeLeft_StartWith (t : AsyncTimer) (d now : Nat) :
    (t.StartWith d now).GetTimeLeft now = d := by
  simp [AsyncTimer.StartWith, AsyncTimer.GetTimeLeft]

theorem AsyncTimer.GetTimeLeft_Start (t : AsyncTimer) (now : Nat) :
    (t.Start now).GetTimeLeft now = t.duration := by
  simp [AsyncTimer.Start, AsyncTimer.GetTimeLeft]

theorem AsyncTimer.RanOut_mono {t : AsyncTimer} {now now' : Nat}
    (h : t.RanOut now = true) (hle : now ≤ now') : t.RanOut now' = true := by
  unfold AsyncTimer.RanOut at h ⊢
  cases hs : t.startedAt with
  | none => rfl
  | some s => simp only [hs, decide_eq_true_eq] at h ⊢; omega

/-! ## Helper lemmas about the stages of `ProcessCarData` -/

/-- The clamp stage only touches the cooldown timer. -/
theorem clampTimerStage_fields (s : ProcessState) (now : Nat) :
    (clampTimerStage s now).timerTurboCooldownMonitor = s.timerTurboCooldownMonitor
    ∧ (clampTimerStage s now).monitorMaxEngineRPM = s.monitorMaxEngineRPM
    ∧ (clampTimerStage s now).monitorMaxExhaustGasTemp = s.monitorMaxExhaustGasTemp
    ∧ (clampTimerStage s now).turboBoostPsi = s.turboBoostPsi
    ∧ (clampTimerStage s now).maxBoostPsi = s.maxBoostPsi
    ∧ (clampTimerStage s now).maxBoostRPM = s.maxBoostRPM
    ∧ (clampTimerStage s now).maxBoostGear = s.maxBoostGear := by
  unfold clampTimerStage; split <;> simp

/-- The boost stage only touches the boost fields, storing `calcTurboBoostPsi`. -/
theorem boostStage_fields (s : ProcessState) (cd : CarData) :
    (boostStage s cd).timerTurboCooldown = s.timerTurboCooldown
    ∧ (boostStage s cd).timerTurboCooldownMonitor = s.timerTurboCooldownMonitor
    ∧ (boostStage s cd).monitorMaxEngineRPM = s.monitorMaxEngineRPM
    ∧ (boostStage s cd).monitorMaxExhaustGasTemp = s.monitorMaxExhaustGasTemp
    ∧ (boostStage s cd).turboBoostPsi = calcTurboBoostPsi cd := by
  unfold boostStage; dsimp only; split <;> simp

/-- The cold-RPM stage only touches `maxColdRPM`. -/
theorem coldRPMStage_fields (s : ProcessState) (cd : CarData) :
    (coldRPMStage s cd).timerTurboCooldown = s.timerTurboCooldown
    ∧ (coldRPMStage s cd).timerTurboCooldownMonitor = s.timerTurboCooldownMonitor
    ∧ (coldRPMStage s cd).monitorMaxEngineRPM = s.monitorMaxEngineRPM
    ∧ (coldRPMStage s cd).monitorMaxExhaustGasTemp = s.monitorMaxExhaustGasTemp
    ∧ (coldRPMStage s cd).turboBoostPsi = s.turboBoostPsi
    ∧ (coldRPMStage s cd).maxBoostPsi = s.maxBoostPsi
    ∧ (coldRPMStage s cd).maxBoostRPM = s.maxBoostRPM
    ∧ (coldRPMStage s cd).maxBoostGear = s.maxBoostGear := by
  unfold coldRPMStage; split <;> simp

/-- The clamp, boost and cold-RPM stages leave the two timers and the monitor
peaks alone, and the boost stage stores exactly `calcTurboBoostPsi`. -/
theorem preMonitor_stages (s : ProcessState) (cd : CarData) (now : Nat) :
    (coldRPMStage (boostStage (clampTimerStage s now) cd) cd).timerTurboCooldown
        = (clampTimerStage s now).timerTurboCooldown
    ∧ (coldRPMStage (boostStage (clampTimerStage s now) cd) cd).timerTurboCooldownMonitor
        = s.timerTurboCooldownMonitor
    ∧ (coldRPMStage (boostStage (clampTimerStage s now) cd) cd).monitorMaxEngineRPM
        = s.monitorMaxEngineRPM
    ∧ (coldRPMStage (boostStage (clampTimerStage s now) cd) cd).monitorMaxExhaustGasTemp
        = s.monitorMaxExhaustGasTemp
    ∧ (coldRPMStage (boostStage (clampTimerStage s now) cd) cd).turboBoostPsi
        = calcTurboBoostPsi cd := by
  refine ⟨?_, ?_, ?_, ?_, ?_⟩
  · rw [(coldRPMStage_fields _ _).1, (boostStage_fields _ _).1]
  · rw [(coldRPMStage_fields _ _).2.1, (boostStage_fields _ _).2.1,
        (clampTimerStage_fields _ _).1]
  · rw [(coldRPMStage_fields _ _).2.2.1, (boostStage_fields _ _).2.2.1,
        (clampTimerStage_fields _ _).2.1]
  · rw [(coldRPMStage_fields _ _).2.2.2.1, (boostStage_fields _ _).2.2.2.1,
        (clampTimerStage_fields _ _).2.2.1]
  · rw [(coldRPMStage_fields _ _).2.2.2.2.1, (boostStage_fields _ _).2.2.2.2]

/-- The monitor stage never touches the boost fields. -/
theorem monitorStage_boost_fields (s : ProcessState) (cd : CarData) (now : Nat) :
    (monitorStage s cd now).turboBoostPsi = s.turboBoostPsi
    ∧ (monitorStage s cd now).maxBoostPsi = s.maxBoostPsi
    ∧ (monitorStage s cd now).maxBoostRPM = s.maxBoostRPM
    ∧ (monitorStage s cd now).maxBoostGear = s.maxBoostGear := by
  unfold monitorStage
  split
  · simp
  · dsimp only; split <;> simp

/-- The computed cooldown duration never exceeds the maximum tier duration. -/
theorem computedCooldownDuration_le (psi : ℚ) (cd : CarData) (monRPM monEGT : Int) :
    computedCooldownDuration psi cd monRPM monEGT ≤ MaxTurboCooldownDuration := by
  have hM : MaxTurboCooldownDuration = 180000 := rfl
  unfold computedCooldownDuration
  dsimp only
  rw [hM]
  simp only [turboCooldownInfo, tierLookup]
  split_ifs <;> omega

/-- With an implausible (non-positive) atmospheric pressure the boost stage
leaves the running maximum untouched. -/
theorem boostStage_maxBoost_of_nonpos (s : ProcessState) (cd : CarData)
    (hA : cd.AtmosphericPressure ≤ 0) :
    (boostStage s cd).maxBoostPsi = s.maxBoostPsi
    ∧ (boostStage s cd).maxBoostRPM = s.maxBoostRPM
    ∧ (boostStage s cd).maxBoostGear = s.maxBoostGear := by
  unfold boostStage; dsimp only
  rw [if_neg]
  · simp
  · rintro ⟨-, h2⟩; omega

/-- What the clamp stage does to the cooldown timer. -/
theorem clampTimerStage_timer (s : ProcessState) (now : Nat) :
    (clampTimerStage s now).timerTurboCooldown
      = (if s.timerTurboCooldown.GetTimeLeft now > MaxTurboCooldownDuration
         then s.timerTurboCooldown.Start now else s.timerTurboCooldown) := by
  unfold clampTimerStage; split <;> rfl

/-- While the monitor window is still running the cooldown timer is untouched. -/
theorem monitorStage_live_timer (s : ProcessState) (cd : CarData) (now : Nat)
    (h : s.timerTurboCooldownMonitor.RanOut now = false) :
    (monitorStage s cd now).timerTurboCooldown = s.timerTurboCooldown := by
  unfold monitorStage
  rw [h]
  simp

/-- On window expiry the remaining cooldown becomes the maximum of the
remaining time and the freshly computed duration (ProcessCarData.h
lines 168-172). -/
theorem monitorStage_expired_timer (s : ProcessState) (cd : CarData) (now : Nat)
    (h : s.timerTurboCooldownMonitor.RanOut now = true) :
    (monitorStage s cd now).timerTurboCooldown.GetTimeLeft now
      = max (s.timerTurboCooldown.GetTimeLeft now)
            (computedCooldownDuration s.turboBoostPsi cd
               s.monitorMaxEngineRPM s.monitorMaxExhaustGasTemp) := by
  unfold monitorStage
  rw [h]
  simp only [Bool.not_true, Bool.false_eq_true, if_false]
  split
  next hgt => rw [AsyncTimer.GetTimeLeft_StartWith]; omega
  next hle => dsimp only; omega

/-- On window expiry the timer's configured duration is either replaced by the
computed duration or kept. -/
theorem monitorStage_expired_timer_duration (s : ProcessState) (cd : CarData)
    (now : Nat) (h : s.timerTurboCooldownMonitor.RanOut now = true) :
    (monitorStage s cd now).timerTurboCooldown.duration
      = (if computedCooldownDuration s.turboBoostPsi cd
             s.monitorMaxEngineRPM s.monitorMaxExhaustGasTemp
           > s.timerTurboCooldown.GetTimeLeft now
         then computedCooldownDuration s.turboBoostPsi cd
                s.monitorMaxEngineRPM s.monitorMaxExhaustGasTemp
         else s.timerTurboCooldown.duration) := by
  unfold monitorStage
  rw [h]
  simp only [Bool.not_true, Bool.false_eq_true, if_false]
  split <;> rfl

/-! ## C8 -/

/-- C8: for every 8-byte broadcast payload, `CalcGear_FromBroadcastedFrame`
maps the 4-bit gear code in byte 0 bits 7..4 as: code 0x07 to −1 (reverse),
codes 0x08, 0x09, 0x0A to gears 7, 8, 9, code 0x0F to 0 (neutral in Park),
and code 0x00 to 0 (neutral). -/
theorem c8_gear_decode (pData : List Nat) (h : pData.getD 0 0 < 256) :
    (pData.getD 0 0 >>> 4 = 0x07 → CalcGear_FromBroadcastedFrame pData = -1)
    ∧ (pData.getD 0 0 >>> 4 = 0x08 → CalcGear_FromBroadcastedFrame pData = 7)
    ∧ (pData.getD 0 0 >>> 4 = 0x09 → CalcGear_FromBroadcastedFrame pData = 8)
    ∧ (pData.getD 0 0 >>> 4 = 0x0A → CalcGear_FromBroadcastedFrame pData = 9)
    ∧ (pData.getD 0 0 >>> 4 = 0x0F → CalcGear_FromBroadcastedFrame pData = 0)
    ∧ (pData.getD 0 0 >>> 4 = 0x00 → CalcGear_FromBroadcastedFrame pData = 0) := by
  have hm : pData.getD 0 0 % 256 = pData.getD 0 0 := Nat.mod_eq_of_lt h
  refine ⟨fun hg => ?_, fun hg => ?_, fun hg => ?_, fun hg => ?_, fun hg => ?_, fun hg => ?_⟩
  all_goals
    unfold CalcGear_FromBroadcastedFrame
    dsimp only
    rw [hm, hg]
    norm_num

/-- Witness for C8 at the concrete payload bytes 0x70, 0x87, 0x95, 0xA3, 0xF1
and 0x0F. -/
theorem c8_gear_decode_witness :
    CalcGear_FromBroadcastedFrame [0x70] = -1
    ∧ CalcGear_FromBroadcastedFrame [0x87] = 7
    ∧ CalcGear_FromBroadcastedFrame [0x95] = 8
    ∧ CalcGear_FromBroadcastedFrame [0xA3] = 9
    ∧ CalcGear_FromBroadcastedFrame [0xF1] = 0
    ∧ CalcGear_FromBroadcastedFrame [0x0F] = 0 :=
  ⟨(c8_gear_decode [0x70] (by decide)).1 (by decide),
   (c8_gear_decode [0x87] (by decide)).2.1 (by decide),
   (c8_gear_decode [0x95] (by decide)).2.2.1 (by decide),
   (c8_gear_decode [0xA3] (by decide)).2.2.2.1 (by decide),
   (c8_gear_decode [0xF1] (by decide)).2.2.2.2.1 (by decide),
   (c8_gear_decode [0x0F] (by decide)).2.2.2.2.2 (by decide)⟩

/-! ## C9 -/

/-- The first two encoded bytes decode back to the frame count, frame index and
info code, for every in-range frame count and index. -/
theorem encode_frame_fields :
    ∀ nf < 33, 1 ≤ nf → ∀ cf < 32,
      GetNumRadioFrames [encByte0 nf cf, encByte1 cf] = nf
      ∧ GetCurrentRadioFrame [encByte0 nf cf, encByte1 cf] = cf
      ∧ GetRadioInfoCode [encByte0 nf cf, encByte1 cf] = InfoCode := by decide

/-- C9: the display-channel payload round-trips.  For every frame count in
1..32, frame index in 0..31 and character codes below 256, the frame built by
`SetDashboardTextCharacters` decodes back through `GetNumRadioFrames`,
`GetCurrentRadioFrame` and `GetRadioInfoCode`, and its character slots are two
bytes each with high byte 0. -/
theorem c9_payload_roundtrip (nf cf c0 c1 c2 : Nat)
    (h1 : 1 ≤ nf) (h2 : nf ≤ 32) (h3 : cf < 32)
    (hc0 : c0 < 256) (hc1 : c1 < 256) (hc2 : c2 < 256) :
    GetNumRadioFrames (SetDashboardTextCharacters nf cf [c0, c1, c2]) = nf
    ∧ GetCurrentRadioFrame (SetDashboardTextCharacters nf cf [c0, c1, c2]) = cf
    ∧ GetRadioInfoCode (SetDashboardTextCharacters nf cf [c0, c1, c2]) = InfoCode
    ∧ SetDashboardTextCharacters nf cf [c0, c1, c2] =
        [encByte0 nf cf, encByte1 cf, 0, c0, 0, c1, 0, c2] := by
  obtain ⟨hA, hB, hC⟩ := encode_frame_fields nf (by omega) h1 cf h3
  refine ⟨hA, hB, hC, ?_⟩
  simp [SetDashboardTextCharacters, Nat.mod_eq_of_lt hc0, Nat.mod_eq_of_lt hc1,
    Nat.mod_eq_of_lt hc2]

/-- Witness for C9 at 8 frames, frame index 5, characters "HI!". -/
theorem c9_payload_roundtrip_witness :
    GetNumRadioFrames (SetDashboardTextCharacters 8 5 [72, 73, 33]) = 8
    ∧ GetCurrentRadioFrame (SetDashboardTextCharacters 8 5 [72, 73, 33]) = 5
    ∧ GetRadioInfoCode (SetDashboardTextCharacters 8 5 [72, 73, 33]) = InfoCode
    ∧ SetDashboardTextCharacters 8 5 [72, 73, 33] =
        [encByte0 8 5, encByte1 5, 0, 72, 0, 73, 0, 33] :=
  c9_payload_roundtrip 8 5 72 73 33 (by decide) (by decide) (by decide)
    (by decide) (by decide) (by decide)

/-! ## C5 -/

/-- C5: every `ProcessCarData` cycle stores
`clamp((P − A) × 0.0145038, 0, 40)` as the displayed turbo boost psi, and when
the atmospheric pressure is implausible (A ≤ 0) the running maximum boost
record (psi and the RPM/gear at which it occurred) is left unchanged. -/
theorem c5_boost_derivation (s : ProcessState) (cd : CarData) (now : Nat) :
    (ProcessCarData s cd now).turboBoostPsi
      = min (max (((cd.BoostPressure - cd.AtmosphericPressure : Int) : ℚ) * 0.0145038) 0) 40
    ∧ (cd.AtmosphericPressure ≤ 0 →
        (ProcessCarData s cd now).maxBoostPsi = s.maxBoostPsi
        ∧ (ProcessCarData s cd now).maxBoostRPM = s.maxBoostRPM
        ∧ (ProcessCarData s cd now).maxBoostGear = s.maxBoostGear) := by
  constructor
  · show (monitorStage _ cd now).turboBoostPsi = _
    rw [(monitorStage_boost_fields _ cd now).1, (preMonitor_stages s cd now).2.2.2.2]
    unfold calcTurboBoostPsi
    rw [max_mul_of_nonneg 0 _ (by norm_num : (0:ℚ) ≤ 0.0145038), zero_mul, max_comm]
  · intro hA
    have h1 := monitorStage_boost_fields
      (coldRPMStage (boostStage (clampTimerStage s now) cd) cd) cd now
    have h2 := coldRPMStage_fields (boostStage (clampTimerStage s now) cd) cd
    have h3 := boostStage_maxBoost_of_nonpos (clampTimerStage s now) cd hA
    have h4 := clampTimerStage_fields s now
    refine ⟨?_, ?_, ?_⟩
    · show (monitorStage _ cd now).maxBoostPsi = _
      rw [h1.2.1, h2.2.2.2.2.2.1, h3.1, h4.2.2.2.2.1]
    · show (monitorStage _ cd now).maxBoostRPM = _
      rw [h1.2.2.1, h2.2.2.2.2.2.2.1, h3.2.1, h4.2.2.2.2.2.1]
    · show (monitorStage _ cd now).maxBoostGear = _
      rw [h1.2.2.2, h2.2.2.2.2.2.2.2, h3.2.2, h4.2.2.2.2.2.2]

/-- Witness for C5: with a zeroed snapshot the atmospheric pressure is
non-positive, so the maximum-boost record survives the cycle unchanged. -/
theorem c5_boost_derivation_witness :
    (0 : Int) ≤ 0
    ∧ ((ProcessCarData expiredMonitorState
          { EngineRPM := 0, Gear := 0, EngineTemp := 0, EngineOilTemp := 0,
            ExhaustGasTemp := 0, AtmosphericPressure := 0, BoostPressure := 0,
            Battery := 0, DriveMode := 0, bCarTurnedOn := true } 0).maxBoostPsi
        = expiredMonitorState.maxBoostPsi
      ∧ (ProcessCarData expiredMonitorState
          { EngineRPM := 0, Gear := 0, EngineTemp := 0, EngineOilTemp := 0,
            ExhaustGasTemp := 0, AtmosphericPressure := 0, BoostPressure := 0,
            Battery := 0, DriveMode := 0, bCarTurnedOn := true } 0).maxBoostRPM
        = expiredMonitorState.maxBoostRPM
      ∧ (ProcessCarData expiredMonitorState
          { EngineRPM := 0, Gear := 0, EngineTemp := 0, EngineOilTemp := 0,
            ExhaustGasTemp := 0, AtmosphericPressure := 0, BoostPressure := 0,
            Battery := 0, DriveMode := 0, bCarTurnedOn := true } 0).maxBoostGear
        = expiredMonitorState.maxBoostGear) :=
  ⟨le_refl 0, (c5_boost_derivation expiredMonitorState _ 0).2 (by decide)⟩

/-! ## C6 -/

/-- C6 counterexample: at the window expiry with oil at 50 °C (below the
still-cold threshold of 60 °C) but boost ≈ 29 psi (above the spirited-driving
threshold of 20 psi), the computed cooldown duration is the maximum tier
duration, not the 0 the claim requires for any cold-oil input: the spirited
override is applied after the cold-oil override and wins. -/
theorem c6_cold_override_counterexample :
    coldOilHighBoostCar.EngineOilTemp < TurboCooldownOilTemperature
    ∧ computedCooldownDuration (calcTurboBoostPsi coldOilHighBoostCar)
        coldOilHighBoostCar 0 0 = MaxTurboCooldownDuration
    ∧ expiredMonitorState.timerTurboCooldownMonitor.RanOut 10000 = true
    ∧ (ProcessCarData expiredMonitorState coldOilHighBoostCar
        10000).timerTurboCooldown.GetTimeLeft 10000 = 180000
    ∧ MaxTurboCooldownDuration ≠ 0 := by
  have hpsi : calcTurboBoostPsi coldOilHighBoostCar > SpritedDrivingBoostPressure := by
    unfold calcTurboBoostPsi coldOilHighBoostCar SpritedDrivingBoostPressure
    norm_num
  have hcomputed : ∀ monRPM monEGT : Int,
      computedCooldownDuration (calcTurboBoostPsi coldOilHighBoostCar)
        coldOilHighBoostCar monRPM monEGT = MaxTurboCooldownDuration := by
    intro monRPM monEGT
    unfold computedCooldownDuration
    dsimp only
    rw [if_pos hpsi]
  refine ⟨by decide, hcomputed 0 0, by decide, ?_, by decide⟩
  have hm := preMonitor_stages expiredMonitorState coldOilHighBoostCar 10000
  have hexp' : (coldRPMStage (boostStage (clampTimerStage expiredMonitorState 10000)
      coldOilHighBoostCar) coldOilHighBoostCar).timerTurboCooldownMonitor.RanOut 10000
      = true := by
    rw [hm.2.1]; decide
  show (monitorStage _ coldOilHighBoostCar 10000).timerTurboCooldown.GetTimeLeft 10000 = _
  rw [monitorStage_expired_timer _ _ _ hexp', hm.1, clampTimerStage_timer,
    hm.2.2.1, hm.2.2.2.1, hm.2.2.2.2]
  rw [if_neg (by decide :
    ¬ expiredMonitorState.timerTurboCooldown.GetTimeLeft 10000 > MaxTurboCooldownDuration)]
  rw [show expiredMonitorState.monitorMaxEngineRPM = 0 from rfl,
      show expiredMonitorState.monitorMaxExhaustGasTemp = 0 from rfl,
      hcomputed 0 0]
  decide

/-- C6 (amended): the two overrides apply in sequence, the spirited-driving one
last, so it takes precedence.  When the boost does not exceed the
spirited-driving threshold, oil below the still-cold threshold forces the
computed duration to 0 regardless of the RPM/EGT tier; whenever the boost
exceeds the threshold the computed duration is the maximum tier duration
regardless of the RPM/EGT tier (and of the oil temperature). -/
theorem c6_overrides_amended (psi : ℚ) (cd : CarData) (monRPM monEGT : Int) :
    (¬ psi > SpritedDrivingBoostPressure →
        cd.EngineOilTemp < TurboCooldownOilTemperature →
        computedCooldownDuration psi cd monRPM monEGT = 0)
    ∧ (psi > SpritedDrivingBoostPressure →
        computedCooldownDuration psi cd monRPM monEGT = MaxTurboCooldownDuration) := by
  unfold computedCooldownDuration
  dsimp only
  constructor
  · intro h1 h2
    rw [if_pos h2, if_neg h1]
  · intro hb
    rw [if_pos hb]

/-- Witness for C6 (amended): zero boost and 50 °C oil give duration 0 even at
red-line window peaks; 29 psi forces the maximum duration even with cold oil. -/
theorem c6_overrides_amended_witness :
    (¬ (0 : ℚ) > SpritedDrivingBoostPressure
      ∧ coldOilHighBoostCar.EngineOilTemp < TurboCooldownOilTemperature
      ∧ calcTurboBoostPsi coldOilHighBoostCar > SpritedDrivingBoostPressure)
    ∧ computedCooldownDuration 0 coldOilHighBoostCar 5000 900 = 0
    ∧ computedCooldownDuration (calcTurboBoostPsi coldOilHighBoostCar)
        coldOilHighBoostCar 5000 900 = MaxTurboCooldownDuration := by
  have hb : calcTurboBoostPsi coldOilHighBoostCar > SpritedDrivingBoostPressure := by
    unfold calcTurboBoostPsi coldOilHighBoostCar SpritedDrivingBoostPressure
    norm_num
  have h0 : ¬ (0 : ℚ) > SpritedDrivingBoostPressure := by
    unfold SpritedDrivingBoostPressure; norm_num
  exact ⟨⟨h0, by decide, hb⟩,
    (c6_overrides_amended 0 coldOilHighBoostCar 5000 900).1 h0 (by decide),
    (c6_overrides_amended (calcTurboBoostPsi coldOilHighBoostCar)
      coldOilHighBoostCar 5000 900).2 hb⟩

/-- Once the monitor window has expired, the cycle re-seeds both peak trackers
from the instantaneous snapshot values. -/
theorem monitorStage_expired_monitor_fields (s : ProcessState) (cd : CarData)
    (now : Nat) (h : s.timerTurboCooldownMonitor.RanOut now = true) :
    (monitorStage s cd now).monitorMaxEngineRPM = cd.EngineRPM
    ∧ (monitorStage s cd now).monitorMaxExhaustGasTemp = cd.ExhaustGasTemp := by
  unfold monitorStage
  rw [h]
  simp

/-! ## C7 -/

/-- C7: on expiry of the 5-second observation window the estimator takes the
cooldown duration of the first tier of the descending table whose RPM or EGT
threshold is strictly exceeded by the window peaks (>4000 RPM or >816 °C gives
180 s, then >3500/703 gives 60 s, then >2600/649 gives 30 s, then >2100/538
gives 0, otherwise 0), and the restarted window's peak trackers are seeded from
the current instantaneous RPM and EGT rather than zero. -/
theorem c7_tier_selection (s : ProcessState) (cd : CarData) (now : Nat)
    (hexp : s.timerTurboCooldownMonitor.RanOut now = true) :
    (∀ r e : Int,
        tierLookup turboCooldownInfo r e =
          if r > 4000 ∨ e > 816 then 180 * 1000
          else if r > 3500 ∨ e > 703 then 60 * 1000
          else if r > 2600 ∨ e > 649 then 30 * 1000
          else if r > 2100 ∨ e > 538 then 0
          else 0)
    ∧ (ProcessCarData s cd now).monitorMaxEngineRPM = cd.EngineRPM
    ∧ (ProcessCarData s cd now).monitorMaxExhaustGasTemp = cd.ExhaustGasTemp := by
  have hexp' : (coldRPMStage (boostStage (clampTimerStage s now) cd)
      cd).timerTurboCooldownMonitor.RanOut now = true := by
    rw [(preMonitor_stages s cd now).2.1]; exact hexp
  refine ⟨fun r e => ?_, ?_, ?_⟩
  · norm_num [turboCooldownInfo, tierLookup]
  · exact (monitorStage_expired_monitor_fields _ cd now hexp').1
  · exact (monitorStage_expired_monitor_fields _ cd now hexp').2

/-- Witness for C7 at the expired monitor state. -/
theorem c7_tier_selection_witness :
    expiredMonitorState.timerTurboCooldownMonitor.RanOut 10000 = true
    ∧ (ProcessCarData expiredMonitorState coldOilHighBoostCar
        10000).monitorMaxEngineRPM = coldOilHighBoostCar.EngineRPM
    ∧ (ProcessCarData expiredMonitorState coldOilHighBoostCar
        10000).monitorMaxExhaustGasTemp = coldOilHighBoostCar.ExhaustGasTemp :=
  ⟨by decide,
   (c7_tier_selection expiredMonitorState coldOilHighBoostCar 10000 (by decide)).2.1,
   (c7_tier_selection expiredMonitorState coldOilHighBoostCar 10000 (by decide)).2.2⟩

/-! ## C2 -/

/-- C2: whenever the monitor window expires and a duration `D` is computed from
the tier table and overrides, the remaining cooldown countdown after the cycle
equals `max(remaining before, D)` — in particular the remaining time never
decreases as a result of a newly computed duration, so the countdown shortens
only by the passage of time.  (`remaining before` is the remaining time at the
point of application, i.e. after the sanity clamp of lines 101-104.) -/
theorem c2_cooldown_monotone (s : ProcessState) (cd : CarData) (now : Nat)
    (hexp : s.timerTurboCooldownMonitor.RanOut now = true) :
    (ProcessCarData s cd now).timerTurboCooldown.GetTimeLeft now
      = max ((clampTimerStage s now).timerTurboCooldown.GetTimeLeft now)
            (computedCooldownDuration (calcTurboBoostPsi cd) cd
               s.monitorMaxEngineRPM s.monitorMaxExhaustGasTemp)
    ∧ (clampTimerStage s now).timerTurboCooldown.GetTimeLeft now
        ≤ (ProcessCarData s cd now).timerTurboCooldown.GetTimeLeft now := by
  have hm := preMonitor_stages s cd now
  have hexp' : (coldRPMStage (boostStage (clampTimerStage s now) cd)
      cd).timerTurboCooldownMonitor.RanOut now = true := by
    rw [hm.2.1]; exact hexp
  have hkey : (ProcessCarData s cd now).timerTurboCooldown.GetTimeLeft now
      = max ((clampTimerStage s now).timerTurboCooldown.GetTimeLeft now)
            (computedCooldownDuration (calcTurboBoostPsi cd) cd
               s.monitorMaxEngineRPM s.monitorMaxExhaustGasTemp) := by
    show (monitorStage _ cd now).timerTurboCooldown.GetTimeLeft now = _
    rw [monitorStage_expired_timer _ _ _ hexp', hm.1, hm.2.2.1, hm.2.2.2.1, hm.2.2.2.2]
  exact ⟨hkey, by rw [hkey]; omega⟩

/-- Witness for C2 at the expired monitor state and the cold-oil/high-boost
snapshot. -/
theorem c2_cooldown_monotone_witness :
    expiredMonitorState.timerTurboCooldownMonitor.RanOut 10000 = true
    ∧ (ProcessCarData expiredMonitorState coldOilHighBoostCar
        10000).timerTurboCooldown.GetTimeLeft 10000
      = max ((clampTimerStage expiredMonitorState
                10000).timerTurboCooldown.GetTimeLeft 10000)
            (computedCooldownDuration (calcTurboBoostPsi coldOilHighBoostCar)
               coldOilHighBoostCar expiredMonitorState.monitorMaxEngineRPM
               expiredMonitorState.monitorMaxExhaustGasTemp) :=
  ⟨by decide,
   (c2_cooldown_monotone expiredMonitorState coldOilHighBoostCar 10000 (by decide)).1⟩

/-! ## C10 -/

/-- C10: provided the cooldown timer's configured duration is within the bound
(true initially — the timer is constructed with duration 0 — and preserved by
every cycle, as the second conjunct shows), after `ProcessCarData` the
remaining countdown never exceeds `MaxTurboCooldownDuration` (180 s); a
remaining time found above the bound at the start of a cycle is clamped by
restarting the timer. -/
theorem c10_cooldown_bounded (s : ProcessState) (cd : CarData) (now : Nat)
    (hdur : s.timerTurboCooldown.duration ≤ MaxTurboCooldownDuration) :
    (ProcessCarData s cd now).timerTurboCooldown.GetTimeLeft now
        ≤ MaxTurboCooldownDuration
    ∧ (ProcessCarData s cd now).timerTurboCooldown.duration
        ≤ MaxTurboCooldownDuration
    ∧ (s.timerTurboCooldown.GetTimeLeft now > MaxTurboCooldownDuration →
        (clampTimerStage s now).timerTurboCooldown = s.timerTurboCooldown.Start now) := by
  have hm := preMonitor_stages s cd now
  have hclampTL : (clampTimerStage s now).timerTurboCooldown.GetTimeLeft now
      ≤ MaxTurboCooldownDuration := by
    rw [clampTimerStage_timer]
    split
    next h => rw [AsyncTimer.GetTimeLeft_Start]; exact hdur
    next h => omega
  have hclampDur : (clampTimerStage s now).timerTurboCooldown.duration
      ≤ MaxTurboCooldownDuration := by
    rw [clampTimerStage_timer]
    split
    next h => exact hdur
    next h => exact hdur
  cases hR : (coldRPMStage (boostStage (clampTimerStage s now) cd)
      cd).timerTurboCooldownMonitor.RanOut now with
  | false =>
      have ht : (ProcessCarData s cd now).timerTurboCooldown
          = (clampTimerStage s now).timerTurboCooldown := by
        show (monitorStage _ cd now).timerTurboCooldown = _
        rw [monitorStage_live_timer _ _ _ hR, hm.1]
      refine ⟨?_, ?_, ?_⟩
      · rw [ht]; exact hclampTL
      · rw [ht]; exact hclampDur
      · intro h; rw [clampTimerStage_timer, if_pos h]
  | true =>
      have hTL : (ProcessCarData s cd now).timerTurboCooldown.GetTimeLeft now
          = max ((clampTimerStage s now).timerTurboCooldown.GetTimeLeft now)
                (computedCooldownDuration (calcTurboBoostPsi cd) cd
                   s.monitorMaxEngineRPM s.monitorMaxExhaustGasTemp) := by
        show (monitorStage _ cd now).timerTurboCooldown.GetTimeLeft now = _
        rw [monitorStage_expired_timer _ _ _ hR, hm.1, hm.2.2.1, hm.2.2.2.1, hm.2.2.2.2]
      have hDur : (ProcessCarData s cd now).timerTurboCooldown.duration
          ≤ MaxTurboCooldownDuration := by
        show (monitorStage _ cd now).timerTurboCooldown.duration ≤ _
        rw [monitorStage_expired_timer_duration _ cd now hR]
        split
        next => exact computedCooldownDuration_le _ _ _ _
        next => rw [hm.1]; exact hclampDur
      refine ⟨?_, hDur, ?_⟩
      · rw [hTL]
        have hD := computedCooldownDuration_le (calcTurboBoostPsi cd) cd
          s.monitorMaxEngineRPM s.monitorMaxExhaustGasTemp
        omega
      · intro h; rw [clampTimerStage_timer, if_pos h]

/-- Witness for C10 at the expired monitor state (timer duration 0 ≤ 180000). -/
theorem c10_cooldown_bounded_witness :
    expiredMonitorState.timerTurboCooldown.duration ≤ MaxTurboCooldownDuration
    ∧ (ProcessCarData expiredMonitorState coldOilHighBoostCar
        10000).timerTurboCooldown.GetTimeLeft 10000 ≤ MaxTurboCooldownDuration :=
  ⟨by decide,
   (c10_cooldown_bounded expiredMonitorState coldOilHighBoostCar 10000 (by decide)).1⟩

/-! ## C1 -/

/-- During the wait-out phase the only frames this system sends are re-sends of
its local frame 0. -/
theorem InnerWait_events_sent_zero (polls : List (Option (List Nat))) :
    ∀ nf cur e, e ∈ (InnerWait nf cur polls).1 → e = Event.sent 0 := by
  induction polls with
  | nil =>
      intro nf cur e he
      unfold InnerWait at he
      split at he
      · simp at he
      · simp at he
  | cons p rest ih =>
      intro nf cur e he
      unfold InnerWait at he
      split at he
      · simp at he
      · cases p with
        | none => exact ih _ _ _ he
        | some q =>
            dsimp only at he
            rcases List.mem_append.1 he with h1 | h2
            · split at h1
              · simpa using h1
              · simp at h1
            · exact ih _ _ _ h2

/-- The wait-out phase can only exit if it was already past the last competing
frame on entry or some observed frame's index reached its total minus one. -/
theorem InnerWait_exit_frame (polls : List (Option (List Nat))) :
    ∀ nf cur, (InnerWait nf cur polls).2.1 = true →
      nf - 1 ≤ cur
      ∨ ∃ q, some q ∈ polls ∧ GetNumRadioFrames q - 1 ≤ GetCurrentRadioFrame q := by
  induction polls with
  | nil =>
      intro nf cur h
      unfold InnerWait at h
      split at h
      · left; assumption
      · simp at h
  | cons p rest ih =>
      intro nf cur h
      unfold InnerWait at h
      split at h
      · left; assumption
      · cases p with
        | none =>
            dsimp only at h
            rcases ih _ _ h with h1 | ⟨q, hq, hcond⟩
            · left; exact h1
            · right; exact ⟨q, List.mem_cons_of_mem _ hq, hcond⟩
        | some q =>
            dsimp only at h
            rcases ih _ _ h with h1 | ⟨q', hq', hcond⟩
            · right; exact ⟨q, List.mem_cons_self _ _, h1⟩
            · right; exact ⟨q', List.mem_cons_of_mem _ hq', hcond⟩

/-- C1: collision recovery of `SetDashboardText`.  With the local pass at local
frame 2 and the next poll observing a competing frame (different info code) of
total 3 at index 1, the emitted trace sends local frame 2, delays, and then
immediately re-sends local frame 0; throughout the wait-out phase only local
frame 0 is ever (re-)sent; the wait-out phase exits only once a competing frame
with index total−1 = 2 has been observed; and after it exits the local sequence
restarts from frame 0 with the inter-frame delay shortened by 5 ms. -/
theorem c1_collision_recovery (p : List Nat) (rest : List (Option (List Nat)))
    (hnf : GetNumRadioFrames p = 3) (hcur : GetCurrentRadioFrame p = 1)
    (hcode : GetRadioInfoCode p ≠ InfoCode)
    (hrest : ∀ q : List Nat, some q ∈ rest →
        GetNumRadioFrames q = 3 ∧ GetCurrentRadioFrame q ≤ 2) :
    SetDashboardTextLoop 2 DelayTimeBetweenFrames (some p :: rest)
      = Event.sent 2 :: Event.delayed DelayTimeBetweenFrames :: Event.sent 0 ::
          ((InnerWait 3 1 rest).1
            ++ (if (InnerWait 3 1 rest).2.1 then
                  SetDashboardTextLoop 0 (DelayTimeBetweenFrames - 5)
                    (rest.drop (InnerWait 3 1 rest).2.2)
                else []))
    ∧ (∀ e ∈ (InnerWait 3 1 rest).1, e = Event.sent 0)
    ∧ ((InnerWait 3 1 rest).2.1 = true →
        ∃ q : List Nat, some q ∈ rest ∧ GetCurrentRadioFrame q = 2)
    ∧ ((InnerWait 3 1 rest).2.1 = true →
        ∃ tail, SetDashboardTextLoop 0 (DelayTimeBetweenFrames - 5)
            (rest.drop (InnerWait 3 1 rest).2.2)
          = Event.sent 0 :: Event.delayed (DelayTimeBetweenFrames - 5) :: tail)
    ∧ DelayTimeBetweenFrames - 5 < DelayTimeBetweenFrames := by
  refine ⟨?_, ?_, ?_, ?_, by decide⟩
  · rw [SetDashboardTextLoop]
    rw [if_neg (by decide : ¬ 2 ≥ NumFramesToDisplayText)]
    rw [if_neg hcode, hnf, hcur]
    simp
  · exact fun e he => InnerWait_events_sent_zero rest 3 1 e he
  · intro h
    rcases InnerWait_exit_frame rest 3 1 h with h1 | ⟨q, hq, hcond⟩
    · omega
    · obtain ⟨hq3, hq2⟩ := hrest q hq
      exact ⟨q, hq, by omega⟩
  · intro h
    exact ⟨_, by rw [SetDashboardTextLoop.eq_def,
      if_neg (by decide : ¬ 0 ≥ NumFramesToDisplayText)]⟩

/-- Witness for C1: the competing frame is a total-3 index-1 FM-radio frame
(info code 2), followed by the competing sequence's last frame (index 2). -/
theorem c1_collision_recovery_witness :
    (GetNumRadioFrames [16, 0x42, 0, 0, 0, 0, 0, 0] = 3
      ∧ GetCurrentRadioFrame [16, 0x42, 0, 0, 0, 0, 0, 0] = 1
      ∧ GetRadioInfoCode [16, 0x42, 0, 0, 0, 0, 0, 0] ≠ InfoCode)
    ∧ (∀ e ∈ (InnerWait 3 1 [some [16, 0x82, 0, 0, 0, 0, 0, 0]]).1,
         e = Event.sent 0)
    ∧ (∃ q : List Nat, some q ∈ [some [16, 0x82, 0, 0, 0, 0, 0, 0]]
         ∧ GetCurrentRadioFrame q = 2) :=
  ⟨⟨by decide, by decide, by decide⟩,
   (c1_collision_recovery [16, 0x42, 0, 0, 0, 0, 0, 0]
      [some [16, 0x82, 0, 0, 0, 0, 0, 0]] (by decide) (by decide) (by decide)
      (by intro q hq; simp at hq; subst hq; exact ⟨by decide, by decide⟩)).2.1,
   (c1_collision_recovery [16, 0x42, 0, 0, 0, 0, 0, 0]
      [some [16, 0x82, 0, 0, 0, 0, 0, 0]] (by decide) (by decide) (by decide)
      (by intro q hq; simp at hq; subst hq; exact ⟨by decide, by decide⟩)).2.2.1
     (by decide)⟩

/-! ## C3 -/

theorem AsyncTimer.lt_deadline_of_live {t : AsyncTimer} {now : Nat}
    (h : t.IsActive = true ∧ t.RanOut now = false) : now < t.deadline := by
  obtain ⟨hA, hR⟩ := h
  unfold AsyncTimer.IsActive at hA
  unfold AsyncTimer.RanOut at hR
  unfold AsyncTimer.deadline
  cases hs : t.startedAt with
  | none => simp [hs] at hA
  | some s0 =>
      rw [hs] at hR
      dsimp only at hR
      simp only [decide_eq_false_iff_not, not_le] at hR
      dsimp only
      omega

theorem AsyncTimer.ranOut_false_of_lt {t : AsyncTimer} {now : Nat}
    (hA : t.IsActive = true) (hlt : now < t.deadline) : t.RanOut now = false := by
  unfold AsyncTimer.IsActive at hA
  unfold AsyncTimer.deadline at hlt
  unfold AsyncTimer.RanOut
  cases hs : t.startedAt with
  | none => simp [hs] at hA
  | some s0 =>
      rw [hs] at hlt
      dsimp only at hlt
      dsimp only
      simp only [decide_eq_false_iff_not, not_le]
      omega

/-- If no drained batch contains a qualifying drive-mode frame, the probe loop
times out and reports no traffic. -/
theorem probe_loop_false (t : AsyncTimer) :
    ∀ (m : Nat) (batches : List (List CanFrame)) (now : Nat),
      t.deadline - now ≤ m →
      (∀ b ∈ batches, b.any IsCarOnFrame = false) →
      (ReceviedAnyCANFrameLoop t batches now).1 = false := by
  intro m
  induction m with
  | zero =>
      intro batches now hm hq
      rw [ReceviedAnyCANFrameLoop.eq_def]
      split
      · next h => have := AsyncTimer.lt_deadline_of_live h; omega
      · rfl
  | succ m ih =>
      intro batches now hm hq
      rw [ReceviedAnyCANFrameLoop.eq_def]
      split
      · next h =>
          have hlt := AsyncTimer.lt_deadline_of_live h
          cases batches with
          | nil => exact ih [] (now + 1000) (by omega) (by simp)
          | cons b rest =>
              dsimp only
              rw [if_neg (by rw [hq b (List.mem_cons_self _ _)]; simp)]
              exact ih rest (now + 1000) (by omega)
                (fun b' hb' => hq b' (List.mem_cons_of_mem _ hb'))
      · rfl

/-- If some batch within the window contains a qualifying frame, the probe loop
reports traffic. -/
theorem probe_loop_true (t : AsyncTimer) (hAct : t.IsActive = true) :
    ∀ (j : Nat) (batches : List (List CanFrame)) (now : Nat),
      (batches.getD j []).any IsCarOnFrame = true →
      now + 1000 * j < t.deadline →
      (ReceviedAnyCANFrameLoop t batches now).1 = true := by
  intro j
  induction j with
  | zero =>
      intro batches now hq hlt
      cases batches with
      | nil => simp at hq
      | cons b rest =>
          rw [ReceviedAnyCANFrameLoop.eq_def]
          split
          · dsimp only
            rw [if_pos (by simpa using hq)]
          · next hn =>
              exact absurd ⟨hAct, AsyncTimer.ranOut_false_of_lt hAct (by omega)⟩ hn
  | succ j ih =>
      intro batches now hq hlt
      cases batches with
      | nil => simp at hq
      | cons b rest =>
          rw [ReceviedAnyCANFrameLoop.eq_def]
          split
          · dsimp only
            by_cases hb : b.any IsCarOnFrame = true
            · rw [if_pos hb]
            · rw [if_neg hb]
              exact ih rest (now + 1000) (by simpa using hq) (by omega)
          · next hn =>
              exact absurd ⟨hAct, AsyncTimer.ranOut_false_of_lt hAct (by omega)⟩ hn

/-- When the probe loop reports traffic, it does so at an instant at which the
window timer has not yet run out. -/
theorem probe_loop_true_live (t : AsyncTimer) :
    ∀ (m : Nat) (batches : List (List CanFrame)) (now : Nat),
      t.deadline - now ≤ m →
      (ReceviedAnyCANFrameLoop t batches now).1 = true →
      t.RanOut ((ReceviedAnyCANFrameLoop t batches now).2) = false := by
  intro m
  induction m with
  | zero =>
      intro batches now hm hres
      rw [ReceviedAnyCANFrameLoop.eq_def] at hres ⊢
      split at hres
      · next h => have := AsyncTimer.lt_deadline_of_live h; omega
      · simp at hres
  | succ m ih =>
      intro batches now hm hres
      rw [ReceviedAnyCANFrameLoop.eq_def] at hres ⊢
      split at hres
      · next h =>
          have hlt := AsyncTimer.lt_deadline_of_live h
          split
          · next h' =>
              cases batches with
              | nil =>
                  dsimp only at hres ⊢
                  exact ih [] (now + 1000) (by omega) hres
              | cons b rest =>
                  dsimp only at hres ⊢
                  by_cases hb : b.any IsCarOnFrame = true
                  · rw [if_pos hb] at hres ⊢
                    exact h.2
                  · rw [if_neg hb] at hres ⊢
                    exact ih rest (now + 1000) (by omega) hres
          · next h' => exact absurd h h'
      · simp at hres

/-- If every response within the verification window is absent or decodes to
`Off`, the verification loop reports the ignition as off. -/
theorem ign_loop_false (validModule : Nat → Bool) (getPid : CanFrame → Nat)
    (t : AsyncTimer) :
    ∀ (m : Nat) (batches : List (List CanFrame)) (now : Nat),
      t.deadline - now ≤ m →
      (∀ b ∈ batches,
          drainForIgnitionResponse validModule getPid b = none
          ∨ drainForIgnitionResponse validModule getPid b = some IgnitionOff) →
      CarIgnitionOnLoop validModule getPid t batches now = false := by
  intro m
  induction m with
  | zero =>
      intro batches now hm hq
      rw [CarIgnitionOnLoop.eq_def]
      split
      · next h => have := AsyncTimer.lt_deadline_of_live h; omega
      · rfl
  | succ m ih =>
      intro batches now hm hq
      rw [CarIgnitionOnLoop.eq_def]
      split
      · next h =>
          have hlt := AsyncTimer.lt_deadline_of_live h
          cases batches with
          | nil => exact ih [] (now + 500) (by omega) (by simp)
          | cons b rest =>
              dsimp only
              rcases hq b (List.mem_cons_self _ _) with hd | hd
              · rw [hd]
                exact ih rest (now + 500) (by omega)
                  (fun b' hb' => hq b' (List.mem_cons_of_mem _ hb'))
              · rw [hd]
                simp [IgnitionOff]
      · rfl

/-- If the first ignition response arrives within the window and decodes to a
position other than `Off`, the verification loop reports the ignition as on. -/
theorem ign_loop_true (validModule : Nat → Bool) (getPid : CanFrame → Nat)
    (t : AsyncTimer) (hAct : t.IsActive = true) :
    ∀ (k : Nat) (batches : List (List CanFrame)) (now : Nat) (v : Nat),
      (∀ j < k, drainForIgnitionResponse validModule getPid (batches.getD j []) = none) →
      drainForIgnitionResponse validModule getPid (batches.getD k []) = some v →
      v ≠ IgnitionOff →
      now + 500 * k < t.deadline →
      CarIgnitionOnLoop validModule getPid t batches now = true := by
  intro k
  induction k with
  | zero =>
      intro batches now v hprev hd hv hlt
      cases batches with
      | nil => simp [drainForIgnitionResponse] at hd
      | cons b rest =>
          rw [CarIgnitionOnLoop.eq_def]
          split
          · dsimp only
            rw [show (b :: rest).getD 0 [] = b from rfl] at hd
            rw [hd]
            exact decide_eq_true hv
          · next hn =>
              exact absurd ⟨hAct, AsyncTimer.ranOut_false_of_lt hAct (by omega)⟩ hn
  | succ k ih =>
      intro batches now v hprev hd hv hlt
      cases batches with
      | nil => simp [drainForIgnitionResponse] at hd
      | cons b rest =>
          rw [CarIgnitionOnLoop.eq_def]
          split
          · dsimp only
            have hb : drainForIgnitionResponse validModule getPid b = none := by
              have := hprev 0 (by omega)
              simpa using this
            rw [hb]
            exact ih rest (now + 500) v
              (fun j hj => by
                have := hprev (j + 1) (by omega)
                simpa using this)
              (by simpa using hd) hv (by omega)
          · next hn =>
              exact absurd ⟨hAct, AsyncTimer.ranOut_false_of_lt hAct (by omega)⟩ hn

/-- C3: the terminal action of the power-on detection sequence.  If no
qualifying broadcast frame is drained within the probe window the terminal
action is deep sleep; if one is, but the decoded ignition position reads `Off`
(or no ignition response arrives) within the verification window, the terminal
action is also deep sleep; if one is and the ignition position reads `On` or
`Start` (a previously decoded position, or the first response within the
window), the terminal action is entering the running state. -/
theorem c3_power_on_terminal (validModule : Nat → Bool) (getPid : CanFrame → Nat)
    (ign0 : Nat) (probeBatches verifyBatches : List (List CanFrame)) (t0 : Nat) :
    ((∀ b ∈ probeBatches, b.any IsCarOnFrame = false) →
        WaitForCarToTurnOn validModule getPid ign0 probeBatches verifyBatches t0
          = PowerAction.enterDeepSleep)
    ∧ ((∃ j, j < 5 ∧ (probeBatches.getD j []).any IsCarOnFrame = true) →
        ign0 = IgnitionOff →
        (∀ b ∈ verifyBatches,
            drainForIgnitionResponse validModule getPid b = none
            ∨ drainForIgnitionResponse validModule getPid b = some IgnitionOff) →
        WaitForCarToTurnOn validModule getPid ign0 probeBatches verifyBatches t0
          = PowerAction.enterDeepSleep)
    ∧ ((∃ j, j < 5 ∧ (probeBatches.getD j []).any IsCarOnFrame = true) →
        (ign0 ≠ IgnitionOff
          ∨ ∃ k v,
              (∀ j < k, drainForIgnitionResponse validModule getPid
                  (verifyBatches.getD j []) = none)
              ∧ drainForIgnitionResponse validModule getPid
                  (verifyBatches.getD k []) = some v
              ∧ v ≠ IgnitionOff
              ∧ (ReceviedAnyCANFrameLoop ((AsyncTimer.mk0 5000).Start t0)
                   probeBatches t0).2 + 500 * k < t0 + 5000) →
        WaitForCarToTurnOn validModule getPid ign0 probeBatches verifyBatches t0
          = PowerAction.enterRunning) := by
  have hAct : ((AsyncTimer.mk0 5000).Start t0).IsActive = true := rfl
  have hdl : ((AsyncTimer.mk0 5000).Start t0).deadline = t0 + 5000 := rfl
  refine ⟨?_, ?_, ?_⟩
  · intro hnone
    unfold WaitForCarToTurnOn
    dsimp only
    rw [if_pos (probe_loop_false _ _ probeBatches t0 le_rfl hnone)]
  · intro ⟨j, hj5, hj⟩ hign hoff
    unfold WaitForCarToTurnOn
    dsimp only
    have hpr : (ReceviedAnyCANFrameLoop ((AsyncTimer.mk0 5000).Start t0)
        probeBatches t0).1 = true :=
      probe_loop_true _ hAct j probeBatches t0 hj (by rw [hdl]; omega)
    rw [if_neg (by rw [hpr]; simp)]
    have hC : CarIgnitionOn validModule getPid ign0 ((AsyncTimer.mk0 5000).Start t0)
        verifyBatches
        ((ReceviedAnyCANFrameLoop ((AsyncTimer.mk0 5000).Start t0) probeBatches t0).2)
        = false := by
      unfold CarIgnitionOn
      rw [if_neg (by simpa using hign)]
      exact ign_loop_false validModule getPid _ _ verifyBatches _ le_rfl hoff
    rw [if_pos hC]
  · intro ⟨j, hj5, hj⟩ hon
    unfold WaitForCarToTurnOn
    dsimp only
    have hpr : (ReceviedAnyCANFrameLoop ((AsyncTimer.mk0 5000).Start t0)
        probeBatches t0).1 = true :=
      probe_loop_true _ hAct j probeBatches t0 hj (by rw [hdl]; omega)
    rw [if_neg (by rw [hpr]; simp)]
    have hC : CarIgnitionOn validModule getPid ign0 ((AsyncTimer.mk0 5000).Start t0)
        verifyBatches
        ((ReceviedAnyCANFrameLoop ((AsyncTimer.mk0 5000).Start t0) probeBatches t0).2)
        = true := by
      unfold CarIgnitionOn
      rcases hon with hign | ⟨k, v, hprev, hd, hv, hwin⟩
      · rw [if_pos hign]
      · by_cases hig : ign0 ≠ IgnitionOff
        · rw [if_pos hig]
        · rw [if_neg hig]
          exact ign_loop_true validModule getPid _ hAct k verifyBatches _ v hprev hd hv
            (by rw [hdl]; exact hwin)
    rw [if_neg (by rw [hC]; simp)]

/-- Witness for C3: a drive-mode broadcast frame in the first probe drain and an
`On` ignition response (data byte 4 = 0x04) from module id 0x7E8 carrying PID
0x0131 in the first verification drain end in the running state. -/
theorem c3_power_on_terminal_witness :
    (∃ j, j < 5 ∧ (([[⟨0x384, 8, [0, 0, 0, 0, 0, 0, 0, 0]⟩]] :
        List (List CanFrame)).getD j []).any IsCarOnFrame = true)
    ∧ WaitForCarToTurnOn (fun id => id == 0x7E8)
        (fun f => if f.identifier == 0x7E8 then 0x0131 else 0)
        IgnitionOff
        [[⟨0x384, 8, [0, 0, 0, 0, 0, 0, 0, 0]⟩]]
        [[⟨0x7E8, 8, [0, 0, 0, 0, 0x04, 0, 0, 0]⟩]] 0
      = PowerAction.enterRunning := by
  have hpr : ReceviedAnyCANFrameLoop ((AsyncTimer.mk0 5000).Start 0)
      [[(⟨0x384, 8, [0, 0, 0, 0, 0, 0, 0, 0]⟩ : CanFrame)]] 0 = (true, 0) := by
    rw [ReceviedAnyCANFrameLoop.eq_def]
    rw [dif_pos (by exact ⟨by decide, by decide⟩)]
    dsimp only
    rw [if_pos (by decide)]
  refine ⟨⟨0, by decide, by decide⟩, ?_⟩
  refine (c3_power_on_terminal (fun id => id == 0x7E8)
      (fun f => if f.identifier == 0x7E8 then 0x0131 else 0)
      IgnitionOff
      [[⟨0x384, 8, [0, 0, 0, 0, 0, 0, 0, 0]⟩]]
      [[⟨0x7E8, 8, [0, 0, 0, 0, 0x04, 0, 0, 0]⟩]] 0).2.2
    ⟨0, by decide, by decide⟩
    (Or.inr ⟨0, 0x04, fun j hj => absurd hj (by omega), by decide, by decide, ?_⟩)
  rw [hpr]
  decide

/-! ## C4 -/

/-- The cold-engine-high-RPM condition (oil below 70 °C) rules out the Squadra
condition (oil at or above 70 °C). -/
theorem IsSquadraEnabled_false_of_cold (cd : CarData)
    (h : IsEngineColdAndHighRPM cd = true) : IsSquadraEnabled cd = false := by
  unfold IsEngineColdAndHighRPM at h
  unfold IsSquadraEnabled
  simp only [decide_eq_true_eq] at h
  simp only [decide_eq_false_iff_not]
  rintro ⟨-, h2⟩
  unfold SquadraSafeOilTemperature at *
  omega

/-- With exactly the turbo-cooldown and cold-engine flags active, the
round-robin advance lands on index 5 from 4 or 7, and on index 7 from 5 or 6,
always hitting an active entry. -/
theorem advanceIdleIndex_cooldown_cold (idx : Nat) (a0 a1 a2 a3 : Bool)
    (h4 : 4 ≤ idx) (h7 : idx ≤ 7) :
    advanceIdleIndex 4 [a0, a1, a2, a3, false, true, false, true] idx
      = (if idx = 4 ∨ idx = 7 then 5 else 7, true) := by
  have h : idx = 4 ∨ idx = 5 ∨ idx = 6 ∨ idx = 7 := by omega
  rcases h with h | h | h | h <;> subst h <;>
    simp [advanceIdleIndex, NumInfoMessages, MinInfoIndexWhileIdling]

/-- The driving-info toggle only touches the while-driving timer and index. -/
theorem drivingToggleStage_fields (s : DisplayState) (now : Nat) :
    (drivingToggleStage s now).infoIndexWhileIdling = s.infoIndexWhileIdling
    ∧ (drivingToggleStage s now).bFoundActiveIdleMessage = s.bFoundActiveIdleMessage
    ∧ (drivingToggleStage s now).bIsInfoActive = s.bIsInfoActive
    ∧ (drivingToggleStage s now).timerShowNameAndVersion = s.timerShowNameAndVersion
    ∧ (drivingToggleStage s now).timerWaitBeforeShowingInfoWhileIdle
        = s.timerWaitBeforeShowingInfoWhileIdle
    ∧ (drivingToggleStage s now).timerToggleInfoWhileIdling
        = s.timerToggleInfoWhileIdling := by
  unfold drivingToggleStage
  split <;> simp

/-- The flag-setting pass only touches the active-flag array. -/
theorem setIdleFlagsStage_fields (s : DisplayState) (ps : ProcessState)
    (cd : CarData) (now : Nat) :
    (setIdleFlagsStage s ps cd now).infoIndexWhileIdling = s.infoIndexWhileIdling
    ∧ (setIdleFlagsStage s ps cd now).bFoundActiveIdleMessage
        = s.bFoundActiveIdleMessage
    ∧ (setIdleFlagsStage s ps cd now).timerShowNameAndVersion
        = s.timerShowNameAndVersion
    ∧ (setIdleFlagsStage s ps cd now).timerWaitBeforeShowingInfoWhileIdle
        = s.timerWaitBeforeShowingInfoWhileIdle
    ∧ (setIdleFlagsStage s ps cd now).timerToggleInfoWhileIdling
        = s.timerToggleInfoWhileIdling := by
  unfold setIdleFlagsStage
  simp

/-- Under the C4 conditions the flag-setting pass activates exactly the
turbo-cooldown and cold-engine entries. -/
theorem setIdleFlagsStage_active (s : DisplayState) (ps : ProcessState)
    (cd : CarData) (now : Nat)
    (hboost : IsBoostInfoInteresting ps = false)
    (hbatt : IsBatteryLow cd = false)
    (hcold : IsEngineColdAndHighRPM cd = true)
    (hcool : IsTurboStillCoolingDown ps now = true)
    (a0 a1 a2 a3 a5 a7 : Bool)
    (hact : s.bIsInfoActive = [a0, a1, a2, a3, false, a5, false, a7]) :
    (setIdleFlagsStage s ps cd now).bIsInfoActive
      = [a0, a1, a2, a3, false, true, false, true] := by
  unfold setIdleFlagsStage
  rw [hboost, hbatt, hcold, hcool]
  simp [hact, List.set]

/-- What the idle-toggle boundary does when exactly the turbo-cooldown and
cold-engine entries are active. -/
theorem idleToggleStage_step (s : DisplayState) (now : Nat)
    (htog : s.timerToggleInfoWhileIdling.RanOut now = true)
    (a0 a1 a2 a3 : Bool)
    (hact : s.bIsInfoActive = [a0, a1, a2, a3, false, true, false, true])
    (hidx4 : 4 ≤ s.infoIndexWhileIdling) (hidx7 : s.infoIndexWhileIdling ≤ 7) :
    idleToggleStage s now
      = { s with
          timerToggleInfoWhileIdling := s.timerToggleInfoWhileIdling.Start now,
          infoIndexWhileIdling :=
            (if s.infoIndexWhileIdling = 4 ∨ s.infoIndexWhileIdling = 7 then 5 else 7),
          bFoundActiveIdleMessage := true,
          bIsInfoActive := List.replicate 8 false } := by
  have h : s.infoIndexWhileIdling = 4 ∨ s.infoIndexWhileIdling = 5
      ∨ s.infoIndexWhileIdling = 6 ∨ s.infoIndexWhileIdling = 7 := by omega
  unfold idleToggleStage
  rw [if_pos htog]
  dsimp only
  rw [hact]
  rcases h with h | h | h | h <;> rw [h] <;>
    simp [advanceIdleIndex, NumInfoMessages, MinInfoIndexWhileIdling]

/-- An already-armed debounce timer is left alone. -/
theorem armDebounceStage_active (s : DisplayState) (now : Nat)
    (h : s.timerWaitBeforeShowingInfoWhileIdle.IsActive = true) :
    armDebounceStage s now = s := by
  unfold armDebounceStage
  rw [h]
  simp

/-- With the debounce elapsed and an active idle message found, the idle
message wins over the driving default. -/
theorem chooseIdleInfo_found (s : DisplayState) (now : Nat) (dflt : InfoToDisplay)
    (hR : s.timerWaitBeforeShowingInfoWhileIdle.RanOut now = true)
    (hF : s.bFoundActiveIdleMessage = true) :
    chooseIdleInfo s now dflt = InfoToDisplay.fromIndex s.infoIndexWhileIdling := by
  unfold chooseIdleInfo
  rw [if_pos ⟨hR, hF⟩]

/-- One rendering cycle under the C4 conditions at an idle-toggle boundary:
with battery-low and boost-interesting false, cold-engine and cooldown true,
the car idling, the banner over, the debounce elapsed and the idle toggle
firing, the cycle displays the turbo-cooldown timer or the cold-engine warning
(the one the round-robin lands on), advances the idle index accordingly, resets
all active flags, records that an active idle message was found, restarts the
idle toggle timer and leaves the banner and debounce timers untouched. -/
theorem generateText_idle_toggle_step
    (s : DisplayState) (ps : ProcessState) (cd : CarData) (now : Nat)
    (a0 a1 a2 a3 a5 a7 : Bool)
    (hact : s.bIsInfoActive = [a0, a1, a2, a3, false, a5, false, a7])
    (hidx4 : 4 ≤ s.infoIndexWhileIdling) (hidx7 : s.infoIndexWhileIdling ≤ 7)
    (hidle : IsCarIdlingOrInReverse cd = true)
    (hcold : IsEngineColdAndHighRPM cd = true)
    (hbatt : IsBatteryLow cd = false)
    (hboost : IsBoostInfoInteresting ps = false)
    (hcool : IsTurboStillCoolingDown ps now = true)
    (hbanner : s.timerShowNameAndVersion.RanOut now = true)
    (htog : s.timerToggleInfoWhileIdling.RanOut now = true)
    (hdebA : s.timerWaitBeforeShowingInfoWhileIdle.IsActive = true)
    (hdebR : s.timerWaitBeforeShowingInfoWhileIdle.RanOut now = true) :
    (GenerateText s ps cd now).2
      = some (InfoToDisplay.fromIndex
          (if s.infoIndexWhileIdling = 4 ∨ s.infoIndexWhileIdling = 7 then 5 else 7))
    ∧ (GenerateText s ps cd now).1.infoIndexWhileIdling
        = (if s.infoIndexWhileIdling = 4 ∨ s.infoIndexWhileIdling = 7 then 5 else 7)
    ∧ (GenerateText s ps cd now).1.bIsInfoActive = List.replicate 8 false
    ∧ (GenerateText s ps cd now).1.bFoundActiveIdleMessage = true
    ∧ (GenerateText s ps cd now).1.timerToggleInfoWhileIdling
        = s.timerToggleInfoWhileIdling.Start now
    ∧ (GenerateText s ps cd now).1.timerShowNameAndVersion = s.timerShowNameAndVersion
    ∧ (GenerateText s ps cd now).1.timerWaitBeforeShowingInfoWhileIdle
        = s.timerWaitBeforeShowingInfoWhileIdle := by
  have hd := drivingToggleStage_fields s now
  have hfl := setIdleFlagsStage_fields (drivingToggleStage s now) ps cd now
  have hflA := setIdleFlagsStage_active (drivingToggleStage s now) ps cd now
    hboost hbatt hcold hcool a0 a1 a2 a3 a5 a7 (by rw [hd.2.2.1]; exact hact)
  have hidxEq : (setIdleFlagsStage (drivingToggleStage s now) ps cd
      now).infoIndexWhileIdling = s.infoIndexWhileIdling := by
    rw [hfl.1, hd.1]
  have hstep := idleToggleStage_step (setIdleFlagsStage (drivingToggleStage s now)
      ps cd now) now
    (by rw [hfl.2.2.2.2, hd.2.2.2.2.2]; exact htog)
    a0 a1 a2 a3 hflA
    (by rw [hidxEq]; exact hidx4) (by rw [hidxEq]; exact hidx7)
  unfold GenerateText
  rw [hbanner]
  simp only [Bool.not_true, Bool.false_eq_true, if_false]
  rw [if_pos hidle]
  dsimp only
  rw [hstep]
  rw [armDebounceStage_active _ now (by dsimp only; rw [hfl.2.2.2.1, hd.2.2.2.2.1]; exact hdebA)]
  rw [chooseIdleInfo_found _ now _ (by dsimp only; rw [hfl.2.2.2.1, hd.2.2.2.2.1]; exact hdebR) rfl]
  dsimp only
  rw [hidxEq, hfl.2.2.1, hd.2.2.2.1, hfl.2.2.2.1, hd.2.2.2.2.1, hfl.2.2.2.2, hd.2.2.2.2.2]
  exact ⟨rfl, rfl, rfl, rfl, rfl, rfl, rfl⟩

/-- C4: with the idle conditions {battery-low false, cold-engine true,
cooldown-active true, boost-interesting false} sustained across three idle
toggle boundaries while the car is idling/in reverse, the banner over and the
debounce elapsed, the displayed intent at each boundary is the turbo-cooldown
timer or the cold-engine warning, both are visited, and the low-battery warning
and the max-boost summary are never displayed. -/
theorem c4_idle_round_robin
    (s : DisplayState) (ps : ProcessState) (cd : CarData) (n1 n2 n3 : Nat)
    (a0 a1 a2 a3 a5 a7 : Bool)
    (hact : s.bIsInfoActive = [a0, a1, a2, a3, false, a5, false, a7])
    (hidx4 : 4 ≤ s.infoIndexWhileIdling) (hidx7 : s.infoIndexWhileIdling ≤ 7)
    (hidle : IsCarIdlingOrInReverse cd = true)
    (hcold : IsEngineColdAndHighRPM cd = true)
    (hbatt : IsBatteryLow cd = false)
    (hboost : IsBoostInfoInteresting ps = false)
    (hcool1 : IsTurboStillCoolingDown ps n1 = true)
    (hcool2 : IsTurboStillCoolingDown ps n2 = true)
    (hcool3 : IsTurboStillCoolingDown ps n3 = true)
    (hbanner : s.timerShowNameAndVersion.RanOut n1 = true)
    (htog : s.timerToggleInfoWhileIdling.RanOut n1 = true)
    (htogdur : s.timerToggleInfoWhileIdling.duration = 5000)
    (hdebA : s.timerWaitBeforeShowingInfoWhileIdle.IsActive = true)
    (hdebR : s.timerWaitBeforeShowingInfoWhileIdle.RanOut n1 = true)
    (h12 : n1 + 5000 ≤ n2) (h23 : n2 + 5000 ≤ n3) :
    (GenerateText s ps cd n1).2
        ∈ [some InfoToDisplay.infoTurboCooldownTimer,
           some InfoToDisplay.infoWarningColdEngine]
    ∧ (GenerateText (GenerateText s ps cd n1).1 ps cd n2).2
        ∈ [some InfoToDisplay.infoTurboCooldownTimer,
           some InfoToDisplay.infoWarningColdEngine]
    ∧ (GenerateText (GenerateText (GenerateText s ps cd n1).1 ps cd n2).1
          ps cd n3).2
        ∈ [some InfoToDisplay.infoTurboCooldownTimer,
           some InfoToDisplay.infoWarningColdEngine]
    ∧ some InfoToDisplay.infoTurboCooldownTimer
        ∈ [(GenerateText s ps cd n1).2,
           (GenerateText (GenerateText s ps cd n1).1 ps cd n2).2,
           (GenerateText (GenerateText (GenerateText s ps cd n1).1 ps cd n2).1
              ps cd n3).2]
    ∧ some InfoToDisplay.infoWarningColdEngine
        ∈ [(GenerateText s ps cd n1).2,
           (GenerateText (GenerateText s ps cd n1).1 ps cd n2).2,
           (GenerateText (GenerateText (GenerateText s ps cd n1).1 ps cd n2).1
              ps cd n3).2]
    ∧ some InfoToDisplay.infoWarningLowBattery
        ∉ [(GenerateText s ps cd n1).2,
           (GenerateText (GenerateText s ps cd n1).1 ps cd n2).2,
           (GenerateText (GenerateText (GenerateText s ps cd n1).1 ps cd n2).1
              ps cd n3).2]
    ∧ some InfoToDisplay.infoMaxBoost
        ∉ [(GenerateText s ps cd n1).2,
           (GenerateText (GenerateText s ps cd n1).1 ps cd n2).2,
           (GenerateText (GenerateText (GenerateText s ps cd n1).1 ps cd n2).1
              ps cd n3).2] := by
  have step1 := generateText_idle_toggle_step s ps cd n1 a0 a1 a2 a3 a5 a7
    hact hidx4 hidx7 hidle hcold hbatt hboost hcool1 hbanner htog hdebA hdebR
  set s1 := (GenerateText s ps cd n1).1 with hs1
  have hs1act : s1.bIsInfoActive
      = [false, false, false, false, false, false, false, false] := by
    rw [step1.2.2.1]; rfl
  have hs1idx4 : 4 ≤ s1.infoIndexWhileIdling := by
    rw [step1.2.1]; split <;> omega
  have hs1idx7 : s1.infoIndexWhileIdling ≤ 7 := by
    rw [step1.2.1]; split <;> omega
  have hs1banner : s1.timerShowNameAndVersion.RanOut n2 = true := by
    rw [step1.2.2.2.2.2.1]
    exact AsyncTimer.RanOut_mono hbanner (by omega)
  have hs1tog : s1.timerToggleInfoWhileIdling.RanOut n2 = true := by
    rw [step1.2.2.2.2.1]
    unfold AsyncTimer.Start AsyncTimer.RanOut
    dsimp only
    rw [htogdur]
    exact decide_eq_true (by omega)
  have hs1togdur : s1.timerToggleInfoWhileIdling.duration = 5000 := by
    rw [step1.2.2.2.2.1]
    exact htogdur
  have hs1debA : s1.timerWaitBeforeShowingInfoWhileIdle.IsActive = true := by
    rw [step1.2.2.2.2.2.2]; exact hdebA
  have hs1debR : s1.timerWaitBeforeShowingInfoWhileIdle.RanOut n2 = true := by
    rw [step1.2.2.2.2.2.2]
    exact AsyncTimer.RanOut_mono hdebR (by omega)
  have step2 := generateText_idle_toggle_step s1 ps cd n2
    false false false false false false
    hs1act hs1idx4 hs1idx7 hidle hcold hbatt hboost hcool2 hs1banner hs1tog
    hs1debA hs1debR
  set s2 := (GenerateText s1 ps cd n2).1 with hs2
  have hs2act : s2.bIsInfoActive
      = [false, false, false, false, false, false, false, false] := by
    rw [step2.2.2.1]; rfl
  have hs2idx4 : 4 ≤ s2.infoIndexWhileIdling := by
    rw [step2.2.1]; split <;> omega
  have hs2idx7 : s2.infoIndexWhileIdling ≤ 7 := by
    rw [step2.2.1]; split <;> omega
  have hs2banner : s2.timerShowNameAndVersion.RanOut n3 = true := by
    rw [step2.2.2.2.2.2.1, step1.2.2.2.2.2.1]
    exact AsyncTimer.RanOut_mono hbanner (by omega)
  have hs2tog : s2.timerToggleInfoWhileIdling.RanOut n3 = true := by
    rw [step2.2.2.2.2.1]
    unfold AsyncTimer.Start AsyncTimer.RanOut
    dsimp only
    rw [hs1togdur]
    exact decide_eq_true (by omega)
  have hs2debA : s2.timerWaitBeforeShowingInfoWhileIdle.IsActive = true := by
    rw [step2.2.2.2.2.2.2]; exact hs1debA
  have hs2debR : s2.timerWaitBeforeShowingInfoWhileIdle.RanOut n3 = true := by
    rw [step2.2.2.2.2.2.2, step1.2.2.2.2.2.2]
    exact AsyncTimer.RanOut_mono hdebR (by omega)
  have step3 := generateText_idle_toggle_step s2 ps cd n3
    false false false false false false
    hs2act hs2idx4 hs2idx7 hidle hcold hbatt hboost hcool3 hs2banner hs2tog
    hs2debA hs2debR
  have hd1 := step1.1
  have hd2 := step2.1
  have hd3 := step3.1
  rw [step1.2.1] at hd2
  rw [step2.2.1] at hd3
  rw [step1.2.1] at hd3
  by_cases hc : s.infoIndexWhileIdling = 4 ∨ s.infoIndexWhileIdling = 7
  · rw [if_pos hc] at hd1 hd2 hd3
    norm_num at hd2 hd3
    rw [hd1, hd2, hd3]
    simp [InfoToDisplay.fromIndex]
  · rw [if_neg hc] at hd1 hd2 hd3
    norm_num at hd2 hd3
    rw [hd1, hd2, hd3]
    simp [InfoToDisplay.fromIndex]

/-- Witness for C4: three toggle boundaries at instants 20000, 25000, 30000
while idling in reverse with a cold engine and a running cooldown. -/
theorem c4_idle_round_robin_witness :
    some InfoToDisplay.infoTurboCooldownTimer
      ∈ [(GenerateText idleBoundaryDisplay coolingProcState idleReverseColdCar
            20000).2,
         (GenerateText (GenerateText idleBoundaryDisplay coolingProcState
              idleReverseColdCar 20000).1 coolingProcState idleReverseColdCar
            25000).2,
         (GenerateText (GenerateText (GenerateText idleBoundaryDisplay
                coolingProcState idleReverseColdCar 20000).1 coolingProcState
              idleReverseColdCar 25000).1 coolingProcState idleReverseColdCar
            30000).2]
    ∧ some InfoToDisplay.infoWarningColdEngine
      ∈ [(GenerateText idleBoundaryDisplay coolingProcState idleReverseColdCar
            20000).2,
         (GenerateText (GenerateText idleBoundaryDisplay coolingProcState
              idleReverseColdCar 20000).1 coolingProcState idleReverseColdCar
            25000).2,
         (GenerateText (GenerateText (GenerateText idleBoundaryDisplay
                coolingProcState idleReverseColdCar 20000).1 coolingProcState
              idleReverseColdCar 25000).1 coolingProcState idleReverseColdCar
            30000).2] := by
  have h := c4_idle_round_robin idleBoundaryDisplay coolingProcState
    idleReverseColdCar 20000 25000 30000 false false false false false false
    rfl (by decide) (by decide) (by decide) (by decide)
    (by norm_num [IsBatteryLow, idleReverseColdCar])
    (by norm_num [IsBoostInfoInteresting, coolingProcState])
    (by decide) (by decide) (by decide)
    (by decide) (by decide) (by decide) (by decide) (by decide)
    (by omega) (by omega)
  exact ⟨h.2.2.2.1, h.2.2.2.2.1⟩

end GiuliaDash
